import Mathlib

/-!
# pdatagen field descriptors: accessor, test, test-value and copy emission

Shallow embedding of `cmd/pdatagen/internal/base_fields.go`.

* A Go `string` is a Lean `String` (a sequence of Unicode code points, i.e. a
  valid UTF-8 string). `os.Expand` scans bytes, but every byte it tests for
  (`$`, `{`, `}`, the shell special characters, ASCII letters and digits) is
  ASCII, so on valid UTF-8 the byte scan and the code-point scan cut the text at
  the same places.
* A `*strings.Builder` is the text written to it so far; `WriteString` appends.
* `panic(name)` is `Except.error name`; a method that returns normally yields
  `Except.ok` of the new buffer content.
-/

namespace Pdatagen

/-! ## `os.Expand`

The template substitution utility is the Go standard library's `os.Expand`; it
is not part of this repository's sources. The definitions below follow the
library's algorithm (`os/env.go`). -/

/-- Go `isShellSpecialVar`: the one-character shell variables. -/
def isShellSpecialVar (c : Char) : Bool :=
  c == '*' || c == '#' || c == '$' || c == '@' || c == '!' || c == '?' || c == '-' ||
  c == '0' || c == '1' || c == '2' || c == '3' || c == '4' || c == '5' || c == '6' ||
  c == '7' || c == '8' || c == '9'

/-- Go `isAlphaNum`: underscore, ASCII digit or ASCII letter. -/
def isAlphaNum (c : Char) : Bool :=
  c == '_' || ('0' ≤ c && c ≤ '9') || ('a' ≤ c && c ≤ 'z') || ('A' ≤ c && c ≤ 'Z')

/-- The brace scan of Go `getShellName`: `s` is the text after `{` and `i` the
number of characters already passed, so the Go loop index is `i + 1`. Returns
the name and the width consumed, counted from the `{`. -/
def scanBrace (whole : List Char) : List Char → Nat → List Char × Nat
  | [], _ => ([], 1)
  | c :: rest, i =>
    if c == '}' then
      if i == 0 then ([], 2) else (whole.take i, i + 2)
    else scanBrace whole rest (i + 1)

/-- Go `getShellName`: the name that starts `s` (the text after a `$`) and the
number of characters it takes up. Called on non-empty text only. -/
def getShellName (s : List Char) : List Char × Nat :=
  match s with
  | [] => ([], 0)
  | c :: rest =>
    if c == '{' then
      match rest with
      | c1 :: c2 :: _ =>
        if isShellSpecialVar c1 && c2 == '}' then ([c1], 3) else scanBrace rest rest 0
      | _ => scanBrace rest rest 0
    else if isShellSpecialVar c then ([c], 1)
    else (s.takeWhile isAlphaNum, (s.takeWhile isAlphaNum).length)

/-- The loop of Go `os.Expand` from position `j` on, `s` being the text from `j`:
text up to a `$` is copied, the name after it is replaced through `mapping`
and the scan resumes `w` characters later. `fuel` bounds the iterations. -/
def expandLoop (mapping : String → Except String String) :
    Nat → List Char → Except String (List Char)
  | 0, _ => .ok []
  | _ + 1, [] => .ok []
  | fuel + 1, c :: rest =>
    if c == '$' && !rest.isEmpty then
      let nw := getShellName rest
      if nw.1.isEmpty && nw.2 > 0 then
        -- invalid syntax: the characters are eaten
        expandLoop mapping fuel (rest.drop nw.2)
      else if nw.1.isEmpty then
        -- `$` not followed by a name: the dollar is kept
        (expandLoop mapping fuel (rest.drop nw.2)).map (fun t => '$' :: t)
      else
        match mapping (String.mk nw.1) with
        | .error e => .error e
        | .ok r => (expandLoop mapping fuel (rest.drop nw.2)).map (fun t => r.data ++ t)
    else
      (expandLoop mapping fuel rest).map (fun t => c :: t)

/-- Modelled from the spec: the template substitution utility `os.Expand(s, mapping)`
of the Go standard library, which is not under `src/`. Placeholders are scanned
left to right, without overlap, and the replacement text is inserted as it is:
the scan resumes after the placeholder in the template, never inside the
inserted text. Every iteration consumes at least one character, so `s.length`
iterations are enough. -/
def Expand (s : String) (mapping : String → Except String String) : Except String String :=
  (expandLoop mapping s.length s.data).map String.mk

/-! ## `strings.ToLower` -/

/-- Modelled from the spec: `strings.ToLower` of the Go standard library, which is
not under `src/`, on valid UTF-8: an ASCII upper-case letter becomes the
lower-case one, any other ASCII character is kept, and a non-ASCII code point
goes through the Unicode case table of `unicode.ToLower`, which is the
parameter `uni`. -/
def ToLower (uni : Char → Char) (s : String) : String :=
  String.mk (s.data.map (fun c =>
    if c.val < 128 then (if 'A' ≤ c && c ≤ 'Z' then Char.ofNat (c.toNat + 32) else c)
    else uni c))

/-! ## Collaborating types -/

/-- Modelled from the spec: the owning struct handle `baseStruct`, declared
outside this file; the field emitters use only its display name `getName()`. -/
structure baseStruct where
  getName : String
deriving DecidableEq, Repr

/-- Modelled from the spec: the composite sequence type descriptor
`sliceStruct`, declared outside this file; only its display name is read. -/
structure sliceStruct where
  structName : String
deriving DecidableEq, Repr

/-- Modelled from the spec: the composite type descriptor `messagePtrStruct`,
declared outside this file; its display name and origin full name are read. -/
structure messagePtrStruct where
  structName : String
  originFullName : String
deriving DecidableEq, Repr

/-- Modelled from the spec: the composite type descriptor `messageValueStruct`,
declared outside this file; its display name and origin full name are read. -/
structure messageValueStruct where
  structName : String
  originFullName : String
deriving DecidableEq, Repr

/-- A `strings.Builder`, as the text accumulated in it. -/
abbrev Builder := String

/-- Go `sb.WriteString(s)`. -/
def WriteString (sb : Builder) (s : String) : Builder := sb ++ s

/-! ## Templates -/

def accessorSliceTemplate : String :=
"// ${fieldName} returns the ${originFieldName} associated with this ${structName}.
//
// Important: This causes a runtime error if IsNil() returns \"true\".
func (ms ${structName}) ${fieldName}() ${returnType} \x7b
	return new${returnType}(&(*ms.orig).${originFieldName})
\x7d"

def accessorsSliceTestTemplate : String :=
"func Test${structName}_${fieldName}(t *testing.T) \x7b
	ms := New${structName}()
	ms.InitEmpty()
	assert.EqualValues(t, New${returnType}(), ms.${fieldName}())
	fillTest${returnType}(ms.${fieldName}())
	testVal${fieldName} := generateTest${returnType}()
	assert.EqualValues(t, testVal${fieldName}, ms.${fieldName}())
\x7d"

def accessorsMessagePtrTemplate : String :=
"// ${fieldName} returns the ${lowerFieldName} associated with this ${structName}.
// If no ${lowerFieldName} available, it creates an empty message and associates it with this ${structName}.
//
//  Empty initialized ${structName} will return \"nil\" ${returnType}.
//
// Important: This causes a runtime error if IsNil() returns \"true\".
func (ms ${structName}) ${fieldName}() ${returnType} \x7b
	return new${returnType}(&(*ms.orig).${originFieldName})
\x7d"

def accessorsMessagePtrTestTemplate : String :=
"func Test${structName}_${fieldName}(t *testing.T) \x7b
	ms := New${structName}()
	ms.InitEmpty()
	assert.True(t, ms.${fieldName}().IsNil())
	ms.${fieldName}().InitEmpty()
	assert.False(t, ms.${fieldName}().IsNil())
	fillTest${returnType}(ms.${fieldName}())
	assert.EqualValues(t, generateTest${returnType}(), ms.${fieldName}())
\x7d"

def accessorsMessageValueTemplate : String :=
"// ${fieldName} returns the ${lowerFieldName} associated with this ${structName}.
//
// Important: This causes a runtime error if IsNil() returns \"true\".
func (ms ${structName}) ${fieldName}() ${returnType} \x7b
	return new${returnType}(&(*ms.orig).${originFieldName})
\x7d"

def accessorsMessageValueTestTemplate : String :=
"func Test${structName}_${fieldName}(t *testing.T) \x7b
	ms := New${structName}()
	ms.InitEmpty()
	fillTest${returnType}(ms.${fieldName}())
	assert.EqualValues(t, generateTest${returnType}(), ms.${fieldName}())
\x7d"

def accessorsPrimitiveTemplate : String :=
"// ${fieldName} returns the ${lowerFieldName} associated with this ${structName}.
//
// Important: This causes a runtime error if IsNil() returns \"true\".
func (ms ${structName}) ${fieldName}() ${returnType} \x7b
	return (*ms.orig).${originFieldName}
\x7d

// Set${fieldName} replaces the ${lowerFieldName} associated with this ${structName}.
//
// Important: This causes a runtime error if IsNil() returns \"true\".
func (ms ${structName}) Set${fieldName}(v ${returnType}) \x7b
	(*ms.orig).${originFieldName} = v
\x7d"

def accessorsPrimitiveTestTemplate : String :=
"func Test${structName}_${fieldName}(t *testing.T) \x7b
	ms := New${structName}()
	ms.InitEmpty()
	assert.EqualValues(t, ${defaultVal}, ms.${fieldName}())
	testVal${fieldName} := ${testValue}
	ms.Set${fieldName}(testVal${fieldName})
	assert.EqualValues(t, testVal${fieldName}, ms.${fieldName}())
\x7d"

def accessorsPrimitiveTypedTemplate : String :=
"// ${fieldName} returns the ${lowerFieldName} associated with this ${structName}.
//
// Important: This causes a runtime error if IsNil() returns \"true\".
func (ms ${structName}) ${fieldName}() ${returnType} \x7b
	return ${returnType}((*ms.orig).${originFieldName})
\x7d

// Set${fieldName} replaces the ${lowerFieldName} associated with this ${structName}.
//
// Important: This causes a runtime error if IsNil() returns \"true\".
func (ms ${structName}) Set${fieldName}(v ${returnType}) \x7b
	(*ms.orig).${originFieldName} = ${rawType}(v)
\x7d"

def accessorsPrimitiveWithoutSetterTypedTemplate : String :=
"// ${fieldName} returns the ${lowerFieldName} associated with this ${structName}.
//
// Important: This causes a runtime error if IsNil() returns \"true\".
func (ms ${structName}) ${fieldName}() ${returnType} \x7b
	return ${returnType}((*ms.orig).${originFieldName})
\x7d"

/-! ## Field descriptors and their four emission operations

A reference to a composite type descriptor (`*sliceStruct`, ...) is modelled by
the descriptor itself: descriptors are never mutated. -/

structure sliceField where
  fieldName : String
  originFieldName : String
  returnSlice : sliceStruct
deriving DecidableEq, Repr

def sliceField.generateAccessors (sf : sliceField) (ms : baseStruct) (sb : Builder) :
    Except String Builder :=
  (Expand accessorSliceTemplate (fun name =>
    if name = "structName" then .ok ms.getName
    else if name = "fieldName" then .ok sf.fieldName
    else if name = "returnType" then .ok sf.returnSlice.structName
    else if name = "originFieldName" then .ok sf.originFieldName
    else .error name)).map (WriteString sb)

def sliceField.generateAccessorsTest (sf : sliceField) (ms : baseStruct) (sb : Builder) :
    Except String Builder :=
  (Expand accessorsSliceTestTemplate (fun name =>
    if name = "structName" then .ok ms.getName
    else if name = "fieldName" then .ok sf.fieldName
    else if name = "returnType" then .ok sf.returnSlice.structName
    else .error name)).map (WriteString sb)

def sliceField.generateSetWithTestValue (sf : sliceField) (sb : Builder) : Except String Builder :=
  .ok (WriteString sb ("\tfillTest" ++ sf.returnSlice.structName ++ "(tv." ++ sf.fieldName ++ "())"))

def sliceField.generateCopyToValue (sf : sliceField) (sb : Builder) : Except String Builder :=
  .ok (WriteString sb ("\tms." ++ sf.fieldName ++ "().CopyTo(dest." ++ sf.fieldName ++ "())"))

structure messagePtrField where
  fieldName : String
  originFieldName : String
  returnMessage : messagePtrStruct
deriving DecidableEq, Repr

def messagePtrField.generateAccessors (uni : Char → Char) (mf : messagePtrField)
    (ms : baseStruct) (sb : Builder) : Except String Builder :=
  (Expand accessorsMessagePtrTemplate (fun name =>
    if name = "structName" then .ok ms.getName
    else if name = "fieldName" then .ok mf.fieldName
    else if name = "lowerFieldName" then .ok (ToLower uni mf.fieldName)
    else if name = "returnType" then .ok mf.returnMessage.structName
    else if name = "structOriginFullName" then .ok mf.returnMessage.originFullName
    else if name = "originFieldName" then .ok mf.originFieldName
    else .error name)).map (WriteString sb)

def messagePtrField.generateAccessorsTest (mf : messagePtrField) (ms : baseStruct)
    (sb : Builder) : Except String Builder :=
  (Expand accessorsMessagePtrTestTemplate (fun name =>
    if name = "structName" then .ok ms.getName
    else if name = "fieldName" then .ok mf.fieldName
    else if name = "returnType" then .ok mf.returnMessage.structName
    else .error name)).map (WriteString sb)

def messagePtrField.generateSetWithTestValue (mf : messagePtrField) (sb : Builder) :
    Except String Builder :=
  let sb := WriteString sb ("\ttv." ++ mf.fieldName ++ "().InitEmpty()\n")
  .ok (WriteString sb ("\tfillTest" ++ mf.returnMessage.structName ++ "(tv." ++ mf.fieldName ++ "())"))

def messagePtrField.generateCopyToValue (mf : messagePtrField) (sb : Builder) :
    Except String Builder :=
  .ok (WriteString sb ("\tms." ++ mf.fieldName ++ "().CopyTo(dest." ++ mf.fieldName ++ "())"))

structure messageValueField where
  fieldName : String
  originFieldName : String
  returnMessage : messageValueStruct
deriving DecidableEq, Repr

def messageValueField.generateAccessors (uni : Char → Char) (mf : messageValueField)
    (ms : baseStruct) (sb : Builder) : Except String Builder :=
  (Expand accessorsMessageValueTemplate (fun name =>
    if name = "structName" then .ok ms.getName
    else if name = "fieldName" then .ok mf.fieldName
    else if name = "lowerFieldName" then .ok (ToLower uni mf.fieldName)
    else if name = "returnType" then .ok mf.returnMessage.structName
    else if name = "structOriginFullName" then .ok mf.returnMessage.originFullName
    else if name = "originFieldName" then .ok mf.originFieldName
    else .error name)).map (WriteString sb)

def messageValueField.generateAccessorsTest (mf : messageValueField) (ms : baseStruct)
    (sb : Builder) : Except String Builder :=
  (Expand accessorsMessageValueTestTemplate (fun name =>
    if name = "structName" then .ok ms.getName
    else if name = "fieldName" then .ok mf.fieldName
    else if name = "returnType" then .ok mf.returnMessage.structName
    else .error name)).map (WriteString sb)

def messageValueField.generateSetWithTestValue (mf : messageValueField) (sb : Builder) :
    Except String Builder :=
  .ok (WriteString sb ("\tfillTest" ++ mf.returnMessage.structName ++ "(tv." ++ mf.fieldName ++ "())"))

def messageValueField.generateCopyToValue (mf : messageValueField) (sb : Builder) :
    Except String Builder :=
  .ok (WriteString sb ("\tms." ++ mf.fieldName ++ "().CopyTo(dest." ++ mf.fieldName ++ "())"))

structure primitiveField where
  fieldName : String
  originFieldName : String
  returnType : String
  defaultVal : String
  testVal : String
deriving DecidableEq, Repr

def primitiveField.generateAccessors (uni : Char → Char) (pf : primitiveField)
    (ms : baseStruct) (sb : Builder) : Except String Builder :=
  (Expand accessorsPrimitiveTemplate (fun name =>
    if name = "structName" then .ok ms.getName
    else if name = "fieldName" then .ok pf.fieldName
    else if name = "lowerFieldName" then .ok (ToLower uni pf.fieldName)
    else if name = "returnType" then .ok pf.returnType
    else if name = "originFieldName" then .ok pf.originFieldName
    else .error name)).map (WriteString sb)

def primitiveField.generateAccessorsTest (pf : primitiveField) (ms : baseStruct)
    (sb : Builder) : Except String Builder :=
  (Expand accessorsPrimitiveTestTemplate (fun name =>
    if name = "structName" then .ok ms.getName
    else if name = "defaultVal" then .ok pf.defaultVal
    else if name = "fieldName" then .ok pf.fieldName
    else if name = "testValue" then .ok pf.testVal
    else .error name)).map (WriteString sb)

def primitiveField.generateSetWithTestValue (pf : primitiveField) (sb : Builder) :
    Except String Builder :=
  .ok (WriteString sb ("\ttv.Set" ++ pf.fieldName ++ "(" ++ pf.testVal ++ ")"))

def primitiveField.generateCopyToValue (pf : primitiveField) (sb : Builder) :
    Except String Builder :=
  .ok (WriteString sb ("\tdest.Set" ++ pf.fieldName ++ "(ms." ++ pf.fieldName ++ "())"))

/-- Types that has defined a custom type (e.g. "type TimestampUnixNano uint64"). -/
structure primitiveTypedField where
  fieldName : String
  originFieldName : String
  returnType : String
  defaultVal : String
  testVal : String
  rawType : String
  manualSetter : Bool
deriving DecidableEq, Repr

def primitiveTypedField.generateAccessors (uni : Char → Char) (ptf : primitiveTypedField)
    (ms : baseStruct) (sb : Builder) : Except String Builder :=
  let template :=
    if ptf.manualSetter then
      -- Generate code without setter. Setter will be manually coded.
      accessorsPrimitiveWithoutSetterTypedTemplate
    else accessorsPrimitiveTypedTemplate
  (Expand template (fun name =>
    if name = "structName" then .ok ms.getName
    else if name = "fieldName" then .ok ptf.fieldName
    else if name = "lowerFieldName" then .ok (ToLower uni ptf.fieldName)
    else if name = "returnType" then .ok ptf.returnType
    else if name = "rawType" then .ok ptf.rawType
    else if name = "originFieldName" then .ok ptf.originFieldName
    else .error name)).map (WriteString sb)

def primitiveTypedField.generateAccessorsTest (ptf : primitiveTypedField) (ms : baseStruct)
    (sb : Builder) : Except String Builder :=
  (Expand accessorsPrimitiveTestTemplate (fun name =>
    if name = "structName" then .ok ms.getName
    else if name = "defaultVal" then .ok ptf.defaultVal
    else if name = "fieldName" then .ok ptf.fieldName
    else if name = "testValue" then .ok ptf.testVal
    else .error name)).map (WriteString sb)

def primitiveTypedField.generateSetWithTestValue (ptf : primitiveTypedField) (sb : Builder) :
    Except String Builder :=
  .ok (WriteString sb ("\ttv.Set" ++ ptf.fieldName ++ "(" ++ ptf.testVal ++ ")"))

def primitiveTypedField.generateCopyToValue (ptf : primitiveTypedField) (sb : Builder) :
    Except String Builder :=
  .ok (WriteString sb ("\tdest.Set" ++ ptf.fieldName ++ "(ms." ++ ptf.fieldName ++ "())"))

/-- The oneofField is used in case where the proto defines an "oneof". -/
structure oneofField where
  copyFuncName : String
  originFieldName : String
  testVal : String
  fillTestName : String
deriving DecidableEq, Repr

def oneofField.generateAccessors (_one : oneofField) (_ms : baseStruct) (sb : Builder) :
    Except String Builder := .ok sb

def oneofField.generateAccessorsTest (_one : oneofField) (_ms : baseStruct) (sb : Builder) :
    Except String Builder := .ok sb

def oneofField.generateSetWithTestValue (one : oneofField) (sb : Builder) :
    Except String Builder :=
  let sb := WriteString sb ("\t(*tv.orig)." ++ one.originFieldName ++ " = " ++ one.testVal ++ "\n")
  let sb := WriteString sb ("\ttv." ++ one.fillTestName ++ "().InitEmpty()\n")
  .ok (WriteString sb ("\tfillTest" ++ one.fillTestName ++ "(tv." ++ one.fillTestName ++ "())"))

def oneofField.generateCopyToValue (one : oneofField) (sb : Builder) : Except String Builder :=
  .ok (WriteString sb ("\t" ++ one.copyFuncName ++ "((*ms.orig), (*dest.orig))"))

/-- The interface `baseField` with its six implementations. -/
inductive baseField where
  | slice (sf : sliceField)
  | messagePtr (mf : messagePtrField)
  | messageValue (mf : messageValueField)
  | primitive (pf : primitiveField)
  | primitiveTyped (ptf : primitiveTypedField)
  | oneof (one : oneofField)
deriving DecidableEq, Repr

def baseField.generateAccessors (uni : Char → Char) (f : baseField) (ms : baseStruct)
    (sb : Builder) : Except String Builder :=
  match f with
  | .slice sf => sf.generateAccessors ms sb
  | .messagePtr mf => mf.generateAccessors uni ms sb
  | .messageValue mf => mf.generateAccessors uni ms sb
  | .primitive pf => pf.generateAccessors uni ms sb
  | .primitiveTyped ptf => ptf.generateAccessors uni ms sb
  | .oneof one => one.generateAccessors ms sb

def baseField.generateAccessorsTest (f : baseField) (ms : baseStruct) (sb : Builder) :
    Except String Builder :=
  match f with
  | .slice sf => sf.generateAccessorsTest ms sb
  | .messagePtr mf => mf.generateAccessorsTest ms sb
  | .messageValue mf => mf.generateAccessorsTest ms sb
  | .primitive pf => pf.generateAccessorsTest ms sb
  | .primitiveTyped ptf => ptf.generateAccessorsTest ms sb
  | .oneof one => one.generateAccessorsTest ms sb

def baseField.generateSetWithTestValue (f : baseField) (sb : Builder) : Except String Builder :=
  match f with
  | .slice sf => sf.generateSetWithTestValue sb
  | .messagePtr mf => mf.generateSetWithTestValue sb
  | .messageValue mf => mf.generateSetWithTestValue sb
  | .primitive pf => pf.generateSetWithTestValue sb
  | .primitiveTyped ptf => ptf.generateSetWithTestValue sb
  | .oneof one => one.generateSetWithTestValue sb

def baseField.generateCopyToValue (f : baseField) (sb : Builder) : Except String Builder :=
  match f with
  | .slice sf => sf.generateCopyToValue sb
  | .messagePtr mf => mf.generateCopyToValue sb
  | .messageValue mf => mf.generateCopyToValue sb
  | .primitive pf => pf.generateCopyToValue sb
  | .primitiveTyped ptf => ptf.generateCopyToValue sb
  | .oneof one => one.generateCopyToValue sb

/-! ## Templates as literal text and placeholders -/

/-- A piece of a template: literal text or a placeholder `${name}`. -/
inductive Piece where
  | lit (s : String)
  | var (name : String)
deriving DecidableEq, Repr

/-- The template text of one piece. -/
def Piece.render : Piece → String
  | .lit s => s
  | .var n => "$\x7b" ++ n ++ "\x7d"

/-- The template text of a sequence of pieces. -/
def renderPieces : List Piece → String
  | [] => ""
  | p :: ps => p.render ++ renderPieces ps

/-- A literal holds no `$`; a placeholder name is non-empty and holds no `}`. -/
def Piece.wf : Piece → Bool
  | .lit s => s.data.all (fun c => c != '$')
  | .var n => !n.data.isEmpty && n.data.all (fun c => c != '}')

/-- The placeholder names of a sequence of pieces, in order of occurrence. -/
def pieceNames : List Piece → List String
  | [] => []
  | .lit _ :: ps => pieceNames ps
  | .var n :: ps => n :: pieceNames ps

/-- One left-to-right pass over the pieces: literal text is kept, a placeholder
is replaced by what `mapping` gives for its name, inserted as it is. -/
def substPieces (mapping : String → Except String String) : List Piece → Except String String
  | [] => .ok ""
  | .lit s :: ps => (substPieces mapping ps).map (fun t => s ++ t)
  | .var n :: ps =>
    match mapping n with
    | .error e => .error e
    | .ok r => (substPieces mapping ps).map (fun t => r ++ t)

/-- The text obtained from the pieces by putting `val name` in place of each
placeholder, left to right, the values inserted as they are. -/
def fillPieces (val : String → String) : List Piece → String
  | [] => ""
  | .lit s :: ps => s ++ fillPieces val ps
  | .var n :: ps => val n ++ fillPieces val ps

/-- The literal text and placeholders of `accessorSliceTemplate`, in order. -/
def accessorSlicePieces : List Piece :=
  [.lit "// ", .var "fieldName", .lit " returns the ", .var "originFieldName",
   .lit " associated with this ", .var "structName",
   .lit ".\n//\n// Important: This causes a runtime error if IsNil() returns \"true\".\nfunc (ms ",
   .var "structName", .lit ") ", .var "fieldName", .lit "() ", .var "returnType",
   .lit " \x7b\n\treturn new", .var "returnType", .lit "(&(*ms.orig).", .var "originFieldName",
   .lit ")\n\x7d"]

/-- The literal text and placeholders of `accessorsSliceTestTemplate`, in order. -/
def accessorsSliceTestPieces : List Piece :=
  [.lit "func Test", .var "structName", .lit "_", .var "fieldName",
   .lit "(t *testing.T) \x7b\n\tms := New", .var "structName",
   .lit "()\n\tms.InitEmpty()\n\tassert.EqualValues(t, New", .var "returnType", .lit "(), ms.",
   .var "fieldName", .lit "())\n\tfillTest", .var "returnType", .lit "(ms.", .var "fieldName",
   .lit "())\n\ttestVal", .var "fieldName", .lit " := generateTest", .var "returnType",
   .lit "()\n\tassert.EqualValues(t, testVal", .var "fieldName", .lit ", ms.", .var "fieldName",
   .lit "())\n\x7d"]

/-- The literal text and placeholders of `accessorsMessagePtrTemplate`, in order. -/
def accessorsMessagePtrPieces : List Piece :=
  [.lit "// ", .var "fieldName", .lit " returns the ", .var "lowerFieldName",
   .lit " associated with this ", .var "structName", .lit ".\n// If no ", .var "lowerFieldName",
   .lit " available, it creates an empty message and associates it with this ",
   .var "structName", .lit ".\n//\n//  Empty initialized ", .var "structName",
   .lit " will return \"nil\" ", .var "returnType",
   .lit ".\n//\n// Important: This causes a runtime error if IsNil() returns \"true\".\nfunc (ms ",
   .var "structName", .lit ") ", .var "fieldName", .lit "() ", .var "returnType",
   .lit " \x7b\n\treturn new", .var "returnType", .lit "(&(*ms.orig).", .var "originFieldName",
   .lit ")\n\x7d"]

/-- The literal text and placeholders of `accessorsMessagePtrTestTemplate`, in order. -/
def accessorsMessagePtrTestPieces : List Piece :=
  [.lit "func Test", .var "structName", .lit "_", .var "fieldName",
   .lit "(t *testing.T) \x7b\n\tms := New", .var "structName",
   .lit "()\n\tms.InitEmpty()\n\tassert.True(t, ms.", .var "fieldName",
   .lit "().IsNil())\n\tms.", .var "fieldName", .lit "().InitEmpty()\n\tassert.False(t, ms.",
   .var "fieldName", .lit "().IsNil())\n\tfillTest", .var "returnType", .lit "(ms.",
   .var "fieldName", .lit "())\n\tassert.EqualValues(t, generateTest", .var "returnType",
   .lit "(), ms.", .var "fieldName", .lit "())\n\x7d"]

/-- The literal text and placeholders of `accessorsMessageValueTemplate`, in order. -/
def accessorsMessageValuePieces : List Piece :=
  [.lit "// ", .var "fieldName", .lit " returns the ", .var "lowerFieldName",
   .lit " associated with this ", .var "structName",
   .lit ".\n//\n// Important: This causes a runtime error if IsNil() returns \"true\".\nfunc (ms ",
   .var "structName", .lit ") ", .var "fieldName", .lit "() ", .var "returnType",
   .lit " \x7b\n\treturn new", .var "returnType", .lit "(&(*ms.orig).", .var "originFieldName",
   .lit ")\n\x7d"]

/-- The literal text and placeholders of `accessorsMessageValueTestTemplate`, in order. -/
def accessorsMessageValueTestPieces : List Piece :=
  [.lit "func Test", .var "structName", .lit "_", .var "fieldName",
   .lit "(t *testing.T) \x7b\n\tms := New", .var "structName",
   .lit "()\n\tms.InitEmpty()\n\tfillTest", .var "returnType", .lit "(ms.", .var "fieldName",
   .lit "())\n\tassert.EqualValues(t, generateTest", .var "returnType", .lit "(), ms.",
   .var "fieldName", .lit "())\n\x7d"]

/-- The literal text and placeholders of `accessorsPrimitiveTemplate`, in order. -/
def accessorsPrimitivePieces : List Piece :=
  [.lit "// ", .var "fieldName", .lit " returns the ", .var "lowerFieldName",
   .lit " associated with this ", .var "structName",
   .lit ".\n//\n// Important: This causes a runtime error if IsNil() returns \"true\".\nfunc (ms ",
   .var "structName", .lit ") ", .var "fieldName", .lit "() ", .var "returnType",
   .lit " \x7b\n\treturn (*ms.orig).", .var "originFieldName", .lit "\n\x7d\n\n// Set",
   .var "fieldName", .lit " replaces the ", .var "lowerFieldName", .lit " associated with this ",
   .var "structName",
   .lit ".\n//\n// Important: This causes a runtime error if IsNil() returns \"true\".\nfunc (ms ",
   .var "structName", .lit ") Set", .var "fieldName", .lit "(v ", .var "returnType",
   .lit ") \x7b\n\t(*ms.orig).", .var "originFieldName", .lit " = v\n\x7d"]

/-- The literal text and placeholders of `accessorsPrimitiveTestTemplate`, in order. -/
def accessorsPrimitiveTestPieces : List Piece :=
  [.lit "func Test", .var "structName", .lit "_", .var "fieldName",
   .lit "(t *testing.T) \x7b\n\tms := New", .var "structName",
   .lit "()\n\tms.InitEmpty()\n\tassert.EqualValues(t, ", .var "defaultVal", .lit ", ms.",
   .var "fieldName", .lit "())\n\ttestVal", .var "fieldName", .lit " := ", .var "testValue",
   .lit "\n\tms.Set", .var "fieldName", .lit "(testVal", .var "fieldName",
   .lit ")\n\tassert.EqualValues(t, testVal", .var "fieldName", .lit ", ms.", .var "fieldName",
   .lit "())\n\x7d"]

/-- The literal text and placeholders of `accessorsPrimitiveTypedTemplate`, in order. -/
def accessorsPrimitiveTypedPieces : List Piece :=
  [.lit "// ", .var "fieldName", .lit " returns the ", .var "lowerFieldName",
   .lit " associated with this ", .var "structName",
   .lit ".\n//\n// Important: This causes a runtime error if IsNil() returns \"true\".\nfunc (ms ",
   .var "structName", .lit ") ", .var "fieldName", .lit "() ", .var "returnType",
   .lit " \x7b\n\treturn ", .var "returnType", .lit "((*ms.orig).", .var "originFieldName",
   .lit ")\n\x7d\n\n// Set", .var "fieldName", .lit " replaces the ", .var "lowerFieldName",
   .lit " associated with this ", .var "structName",
   .lit ".\n//\n// Important: This causes a runtime error if IsNil() returns \"true\".\nfunc (ms ",
   .var "structName", .lit ") Set", .var "fieldName", .lit "(v ", .var "returnType",
   .lit ") \x7b\n\t(*ms.orig).", .var "originFieldName", .lit " = ", .var "rawType",
   .lit "(v)\n\x7d"]

/-- The literal text and placeholders of `accessorsPrimitiveWithoutSetterTypedTemplate`, in order. -/
def accessorsPrimitiveWithoutSetterTypedPieces : List Piece :=
  [.lit "// ", .var "fieldName", .lit " returns the ", .var "lowerFieldName",
   .lit " associated with this ", .var "structName",
   .lit ".\n//\n// Important: This causes a runtime error if IsNil() returns \"true\".\nfunc (ms ",
   .var "structName", .lit ") ", .var "fieldName", .lit "() ", .var "returnType",
   .lit " \x7b\n\treturn ", .var "returnType", .lit "((*ms.orig).", .var "originFieldName",
   .lit ")\n\x7d"]

/-! ## Names and occurrences of text -/

/-- A character that may occur in a Go identifier: `_`, an ASCII letter or
digit, or a code point outside ASCII (the Unicode letters and digits are among
these). No ASCII punctuation, blank or control character qualifies. -/
def identChar (c : Char) : Bool :=
  isAlphaNum c || decide (128 ≤ c.toNat)

/-- Every character of the name may occur in a Go identifier. Every Go
identifier satisfies this. -/
def identName (s : String) : Bool :=
  s.data.all identChar

/-- The Unicode case table sends a code point outside ASCII to a character that
may occur in an identifier (a letter lowers to a letter, anything else is
kept). -/
def lowerKeepsIdent (uni : Char → Char) : Prop :=
  ∀ c : Char, 128 ≤ c.toNat → identChar (uni c) = true

/-- The text `pat` occurs somewhere in the text `out`. -/
def occursIn (pat out : String) : Prop :=
  pat.data <:+: out.data

/-- The text `pat` starts the text `out`. -/
def startsWith (out pat : String) : Prop :=
  pat.data <+: out.data

/-- The text `pat` ends the text `out`. -/
def endsWith (out pat : String) : Prop :=
  pat.data <:+ out.data

/-- The texts that follow the occurrences of the character `c` in `l`, in order. -/
def afterEach (c : Char) : List Char → List (List Char)
  | [] => []
  | x :: xs => if x = c then xs :: afterEach c xs else afterEach c xs

/-- The placeholder names of the templates and the attribute value of a
descriptor that stands for each: the value every placeholder mapping of that
descriptor returns for the name. -/
def baseField.placeholderValue (uni : Char → Char) (f : baseField) (ms : baseStruct)
    (name : String) : String :=
  match f with
  | .slice sf =>
    if name = "structName" then ms.getName
    else if name = "fieldName" then sf.fieldName
    else if name = "returnType" then sf.returnSlice.structName
    else if name = "originFieldName" then sf.originFieldName
    else ""
  | .messagePtr mf =>
    if name = "structName" then ms.getName
    else if name = "fieldName" then mf.fieldName
    else if name = "lowerFieldName" then ToLower uni mf.fieldName
    else if name = "returnType" then mf.returnMessage.structName
    else if name = "structOriginFullName" then mf.returnMessage.originFullName
    else if name = "originFieldName" then mf.originFieldName
    else ""
  | .messageValue mf =>
    if name = "structName" then ms.getName
    else if name = "fieldName" then mf.fieldName
    else if name = "lowerFieldName" then ToLower uni mf.fieldName
    else if name = "returnType" then mf.returnMessage.structName
    else if name = "structOriginFullName" then mf.returnMessage.originFullName
    else if name = "originFieldName" then mf.originFieldName
    else ""
  | .primitive pf =>
    if name = "structName" then ms.getName
    else if name = "fieldName" then pf.fieldName
    else if name = "lowerFieldName" then ToLower uni pf.fieldName
    else if name = "returnType" then pf.returnType
    else if name = "originFieldName" then pf.originFieldName
    else if name = "defaultVal" then pf.defaultVal
    else if name = "testValue" then pf.testVal
    else ""
  | .primitiveTyped ptf =>
    if name = "structName" then ms.getName
    else if name = "fieldName" then ptf.fieldName
    else if name = "lowerFieldName" then ToLower uni ptf.fieldName
    else if name = "returnType" then ptf.returnType
    else if name = "rawType" then ptf.rawType
    else if name = "originFieldName" then ptf.originFieldName
    else if name = "defaultVal" then ptf.defaultVal
    else if name = "testValue" then ptf.testVal
    else ""
  | .oneof _ => ""

/-- The template `generateAccessors` expands for a descriptor; a `oneofField`
expands none. -/
def baseField.accessorsTemplate : baseField → Option String
  | .slice _ => some accessorSliceTemplate
  | .messagePtr _ => some accessorsMessagePtrTemplate
  | .messageValue _ => some accessorsMessageValueTemplate
  | .primitive _ => some accessorsPrimitiveTemplate
  | .primitiveTyped ptf =>
    some (if ptf.manualSetter then accessorsPrimitiveWithoutSetterTypedTemplate
      else accessorsPrimitiveTypedTemplate)
  | .oneof _ => none

/-- The template `generateAccessorsTest` expands for a descriptor; a
`oneofField` expands none. -/
def baseField.accessorsTestTemplate : baseField → Option String
  | .slice _ => some accessorsSliceTestTemplate
  | .messagePtr _ => some accessorsMessagePtrTestTemplate
  | .messageValue _ => some accessorsMessageValueTestTemplate
  | .primitive _ => some accessorsPrimitiveTestTemplate
  | .primitiveTyped _ => some accessorsPrimitiveTestTemplate
  | .oneof _ => none

/-- The pieces of the template `generateAccessors` expands; none for a
`oneofField`. -/
def baseField.accessorsPieces : baseField → List Piece
  | .slice _ => accessorSlicePieces
  | .messagePtr _ => accessorsMessagePtrPieces
  | .messageValue _ => accessorsMessageValuePieces
  | .primitive _ => accessorsPrimitivePieces
  | .primitiveTyped ptf =>
    if ptf.manualSetter then accessorsPrimitiveWithoutSetterTypedPieces
    else accessorsPrimitiveTypedPieces
  | .oneof _ => []

/-- The pieces of the template `generateAccessorsTest` expands; none for a
`oneofField`. -/
def baseField.accessorsTestPieces : baseField → List Piece
  | .slice _ => accessorsSliceTestPieces
  | .messagePtr _ => accessorsMessagePtrTestPieces
  | .messageValue _ => accessorsMessageValueTestPieces
  | .primitive _ => accessorsPrimitiveTestPieces
  | .primitiveTyped _ => accessorsPrimitiveTestPieces
  | .oneof _ => []

/-- The start of every emitted accessor test: the test function header, the
construction of a fresh owning value and its `InitEmpty()`. -/
def testHeader (structName fieldName : String) : String :=
  "func Test" ++ structName ++ "_" ++ fieldName ++ "(t *testing.T) \x7b\n" ++
  "\tms := New" ++ structName ++ "()\n" ++
  "\tms.InitEmpty()\n"

/-- The assertion `assert.<which>(t, ms.<fieldName>().IsNil())`, with `which`
either `True` or `False`. -/
def isNilAssertion (which fieldName : String) : String :=
  "assert." ++ which ++ "(t, ms." ++ fieldName ++ "().IsNil())"

/-- The cuts of `l` at the occurrences of the character `c`: the text before
and the text after each occurrence, in order. -/
def splitsAt (c : Char) : List Char → List (List Char × List Char)
  | [] => []
  | x :: xs =>
    (if x = c then [([], xs)] else []) ++ (splitsAt c xs).map (fun p => (x :: p.1, p.2))

/-- Whether the text `l` begins with the text `pat`. -/
def beginsWith : List Char → List Char → Bool
  | [], _ => true
  | _ :: _, [] => false
  | p :: ps, x :: xs => p == x && beginsWith ps xs

/-- The texts before the occurrences of the text `pat` in `l`, one for each
position at which `pat` begins, in order. -/
def occurrences (pat : List Char) : List Char → List (List Char)
  | [] => if beginsWith pat [] then [[]] else []
  | x :: xs =>
    (if beginsWith pat (x :: xs) then [[]] else []) ++ (occurrences pat xs).map (fun a => x :: a)

/-- The number of occurrences of the text `pat` in the text `out`. -/
def countOccurrences (pat out : String) : Nat :=
  (occurrences pat.data out.data).length

/-- The warning about an uninitialized owner that documents every accessor. -/
def uninitWarning : String :=
  "// Important: This causes a runtime error if IsNil() returns \"true\"."

/-- Every method declaration `func (ms ` in `out` comes right after a line that
is the uninitialized-owner warning. -/
def warnsBeforeEveryMethod (out : String) : Prop :=
  ∀ a b : List Char, out.data = a ++ "func (ms ".data ++ b →
    (uninitWarning ++ "\n").data <:+ a

/-- The name of the test function emitted for a field of a struct. -/
def testFuncName (structName fieldName : String) : String :=
  "Test" ++ structName ++ "_" ++ fieldName

/-- The name of the test function `generateAccessorsTest` emits for a
descriptor; a `oneofField` emits no test. -/
def baseField.testFuncName (f : baseField) (ms : baseStruct) : Option String :=
  match f with
  | .slice sf => some (Pdatagen.testFuncName ms.getName sf.fieldName)
  | .messagePtr mf => some (Pdatagen.testFuncName ms.getName mf.fieldName)
  | .messageValue mf => some (Pdatagen.testFuncName ms.getName mf.fieldName)
  | .primitive pf => some (Pdatagen.testFuncName ms.getName pf.fieldName)
  | .primitiveTyped ptf => some (Pdatagen.testFuncName ms.getName ptf.fieldName)
  | .oneof _ => none

/-! ## Lemmas on `os.Expand` -/

theorem expandLoop_fuel (m : String → Except String String) :
    ∀ (n k : Nat) (s : List Char), s.length ≤ n → s.length ≤ k →
      expandLoop m n s = expandLoop m k s := by
  intro n
  induction n with
  | zero =>
    intro k s hn hk
    have : s = [] := List.length_eq_zero.mp (Nat.le_zero.mp hn)
    subst this
    cases k <;> rfl
  | succ n ih =>
    intro k s hn hk
    cases s with
    | nil => cases k <;> rfl
    | cons c rest =>
      cases k with
      | zero => simp at hk
      | succ k =>
        have hn1 : rest.length ≤ n := by simpa using hn
        have hk1 : rest.length ≤ k := by simpa using hk
        have hd : ∀ w, (rest.drop w).length ≤ n := fun w => by
          simp only [List.length_drop]; omega
        have hd2 : ∀ w, (rest.drop w).length ≤ k := fun w => by
          simp only [List.length_drop]; omega
        simp only [expandLoop]
        rw [ih k rest hn1 hk1, ih k _ (hd _) (hd2 _)]

theorem scanBrace_spec (whole t : List Char) :
    ∀ (n : List Char) (i : Nat), (∀ c ∈ n, c ≠ '}') →
      scanBrace whole (n ++ '}' :: t) i =
        if i + n.length = 0 then ([], 2) else (whole.take (i + n.length), i + n.length + 2) := by
  intro n
  induction n with
  | nil =>
    intro i _
    by_cases hi : i = 0 <;> simp [scanBrace, hi]
  | cons c n ih =>
    intro i h
    have hc : c ≠ '}' := h c (List.mem_cons_self _ _)
    have hn : ∀ d ∈ n, d ≠ '}' := fun d hd => h d (List.mem_cons_of_mem _ hd)
    rw [List.cons_append, scanBrace]
    simp only [beq_iff_eq, hc, if_false, List.length_cons]
    rw [ih (i + 1) hn]
    have e : i + 1 + n.length = i + (n.length + 1) := by omega
    simp [e]

theorem getShellName_brace (n t : List Char) (hne : n ≠ []) (h : ∀ c ∈ n, c ≠ '}') :
    getShellName ('{' :: (n ++ '}' :: t)) = (n, n.length + 2) := by
  have hs : scanBrace (n ++ '}' :: t) (n ++ '}' :: t) 0 = (n, n.length + 2) := by
    rw [scanBrace_spec _ _ n 0 h]
    have : n.length ≠ 0 := fun h0 => hne (List.length_eq_zero.mp h0)
    simp [this]
  cases n with
  | nil => exact absurd rfl hne
  | cons c n =>
    cases n with
    | nil =>
      simp only [List.cons_append, List.nil_append] at hs ⊢
      simp only [getShellName, beq_self_eq_true, if_true, Bool.and_true]
      split
      · rfl
      · exact hs
    | cons d n =>
      have hd : d ≠ '}' := h d (by simp)
      simp only [List.cons_append] at hs ⊢
      simp only [getShellName, beq_self_eq_true, if_true]
      have : (d == '}') = false := by simpa using hd
      simp only [this, Bool.and_false]
      exact hs

theorem except_map_map {ε α β γ : Type} (x : Except ε α) (f : α → β) (g : β → γ) :
    (x.map f).map g = x.map (fun a => g (f a)) := by
  cases x <;> rfl

theorem except_map_id {ε α : Type} (x : Except ε α) (f : α → α) (h : ∀ a, f a = a) :
    x.map f = x := by
  cases x with
  | error e => rfl
  | ok a => simp [Except.map, h]

theorem expandLoop_lit (m : String → Except String String) (t : List Char) :
    ∀ (l : List Char), (∀ c ∈ l, c ≠ '$') →
      expandLoop m (l ++ t).length (l ++ t) =
        (expandLoop m t.length t).map (fun r => l ++ r) := by
  intro l
  induction l with
  | nil =>
    intro _
    exact (except_map_id _ _ (fun a => rfl)).symm
  | cons c l ih =>
    intro h
    have hc : (c == '$') = false := by simpa using h c (List.mem_cons_self _ _)
    have hl : ∀ d ∈ l, d ≠ '$' := fun d hd => h d (List.mem_cons_of_mem _ hd)
    rw [List.cons_append, List.length_cons, expandLoop]
    simp only [hc, Bool.false_and]
    rw [if_neg (by simp), ih hl, except_map_map]
    rfl

theorem expandLoop_var (m : String → Except String String) (n t : List Char)
    (hne : n ≠ []) (h : ∀ c ∈ n, c ≠ '}') :
    expandLoop m ('$' :: '{' :: (n ++ '}' :: t)).length ('$' :: '{' :: (n ++ '}' :: t)) =
      match m (String.mk n) with
      | .error e => .error e
      | .ok r => (expandLoop m t.length t).map (fun x => r.data ++ x) := by
  rw [List.length_cons, expandLoop]
  have hd : List.drop (n.length + 2) ('{' :: (n ++ '}' :: t)) = t := by
    have : n.length + 2 = ('{' :: (n ++ ['}'])).length := by simp
    rw [this]
    have e : '{' :: (n ++ '}' :: t) = ('{' :: (n ++ ['}'])) ++ t := by simp
    rw [e, List.drop_left]
  have hn : n.isEmpty = false := by
    cases n with
    | nil => exact absurd rfl hne
    | cons _ _ => rfl
  simp only [getShellName_brace n t hne h, hd, hn]
  rw [expandLoop_fuel m _ t.length t (by simp; omega) (le_refl _)]
  simp

theorem Expand_renderPieces (m : String → Except String String) :
    ∀ (ps : List Piece), (∀ p ∈ ps, p.wf = true) →
      Expand (renderPieces ps) m = substPieces m ps := by
  intro ps
  induction ps with
  | nil => intro _; rfl
  | cons p ps ih =>
    intro h
    have hp := h p (List.mem_cons_self _ _)
    have ih := ih (fun q hq => h q (List.mem_cons_of_mem _ hq))
    unfold Expand at ih ⊢
    cases p with
    | lit s =>
      have hs : ∀ c ∈ s.data, c ≠ '$' := by simpa [Piece.wf] using hp
      simp only [renderPieces, Piece.render, substPieces, String.length, String.data_append]
      rw [expandLoop_lit m _ s.data hs, ← ih, except_map_map, except_map_map]
      rfl
    | var n =>
      have hn : n.data ≠ [] ∧ ∀ c ∈ n.data, c ≠ '}' := by simpa [Piece.wf] using hp
      have e : ("$\x7b" ++ n ++ "\x7d" ++ renderPieces ps).data =
          '$' :: '{' :: (n.data ++ '}' :: (renderPieces ps).data) := by
        simp [String.data_append]
      simp only [renderPieces, Piece.render, substPieces, String.length]
      rw [e, expandLoop_var m n.data _ hn.1 hn.2, ← ih]
      cases m n with
      | error e => rfl
      | ok r =>
        simp only [String.length]
        rw [except_map_map, except_map_map]
        rfl

set_option maxRecDepth 100000 in
theorem accessorSliceTemplate_eq : accessorSliceTemplate = renderPieces accessorSlicePieces := by
  decide

theorem accessorSlicePieces_wf : ∀ p ∈ accessorSlicePieces, p.wf = true := by
  decide

set_option maxRecDepth 100000 in
theorem accessorsSliceTestTemplate_eq : accessorsSliceTestTemplate = renderPieces accessorsSliceTestPieces := by
  decide

theorem accessorsSliceTestPieces_wf : ∀ p ∈ accessorsSliceTestPieces, p.wf = true := by
  decide

set_option maxRecDepth 100000 in
theorem accessorsMessagePtrTemplate_eq : accessorsMessagePtrTemplate = renderPieces accessorsMessagePtrPieces := by
  decide

theorem accessorsMessagePtrPieces_wf : ∀ p ∈ accessorsMessagePtrPieces, p.wf = true := by
  decide

set_option maxRecDepth 100000 in
theorem accessorsMessagePtrTestTemplate_eq : accessorsMessagePtrTestTemplate = renderPieces accessorsMessagePtrTestPieces := by
  decide

theorem accessorsMessagePtrTestPieces_wf : ∀ p ∈ accessorsMessagePtrTestPieces, p.wf = true := by
  decide

set_option maxRecDepth 100000 in
theorem accessorsMessageValueTemplate_eq : accessorsMessageValueTemplate = renderPieces accessorsMessageValuePieces := by
  decide

theorem accessorsMessageValuePieces_wf : ∀ p ∈ accessorsMessageValuePieces, p.wf = true := by
  decide

set_option maxRecDepth 100000 in
theorem accessorsMessageValueTestTemplate_eq : accessorsMessageValueTestTemplate = renderPieces accessorsMessageValueTestPieces := by
  decide

theorem accessorsMessageValueTestPieces_wf : ∀ p ∈ accessorsMessageValueTestPieces, p.wf = true := by
  decide

set_option maxRecDepth 100000 in
theorem accessorsPrimitiveTemplate_eq : accessorsPrimitiveTemplate = renderPieces accessorsPrimitivePieces := by
  decide

theorem accessorsPrimitivePieces_wf : ∀ p ∈ accessorsPrimitivePieces, p.wf = true := by
  decide

set_option maxRecDepth 100000 in
theorem accessorsPrimitiveTestTemplate_eq : accessorsPrimitiveTestTemplate = renderPieces accessorsPrimitiveTestPieces := by
  decide

theorem accessorsPrimitiveTestPieces_wf : ∀ p ∈ accessorsPrimitiveTestPieces, p.wf = true := by
  decide

set_option maxRecDepth 100000 in
theorem accessorsPrimitiveTypedTemplate_eq : accessorsPrimitiveTypedTemplate = renderPieces accessorsPrimitiveTypedPieces := by
  decide

theorem accessorsPrimitiveTypedPieces_wf : ∀ p ∈ accessorsPrimitiveTypedPieces, p.wf = true := by
  decide

set_option maxRecDepth 100000 in
theorem accessorsPrimitiveWithoutSetterTypedTemplate_eq : accessorsPrimitiveWithoutSetterTypedTemplate = renderPieces accessorsPrimitiveWithoutSetterTypedPieces := by
  decide

theorem accessorsPrimitiveWithoutSetterTypedPieces_wf : ∀ p ∈ accessorsPrimitiveWithoutSetterTypedPieces, p.wf = true := by
  decide

theorem substPieces_ok (m : String → Except String String) (val : String → String) :
    ∀ (ps : List Piece), (∀ n ∈ pieceNames ps, m n = .ok (val n)) →
      substPieces m ps = .ok (fillPieces val ps) := by
  intro ps
  induction ps with
  | nil => intro _; rfl
  | cons p ps ih =>
    intro h
    cases p with
    | lit s =>
      have := ih (fun n hn => h n (by simpa [pieceNames] using hn))
      simp [substPieces, fillPieces, this, Except.map]
    | var n =>
      have h1 := h n (by simp [pieceNames])
      have := ih (fun k hk => h k (by simp [pieceNames, hk]))
      simp [substPieces, fillPieces, this, h1, Except.map]

/-- Expanding a template that is the rendering of well-formed pieces, with a
mapping that resolves every placeholder name of the pieces, and writing the
result to the buffer appends the filled-in text. -/
theorem expand_write (T : String) (ps : List Piece) (m : String → Except String String)
    (val : String → String) (sb : Builder)
    (hT : T = renderPieces ps) (hwf : ∀ p ∈ ps, p.wf = true)
    (hm : ∀ n ∈ pieceNames ps, m n = .ok (val n)) :
    (Expand T m).map (WriteString sb) = .ok (sb ++ fillPieces val ps) := by
  rw [hT, Expand_renderPieces m ps hwf, substPieces_ok m val ps hm]
  rfl

/-- The text `sliceField.generateAccessors` appends: its template filled in. -/
theorem sliceField_generateAccessors_eq (sf : sliceField) (ms : baseStruct) (sb : Builder) :
    sf.generateAccessors ms sb = .ok (sb ++ fillPieces (fun name =>
      if name = "structName" then ms.getName
      else if name = "fieldName" then sf.fieldName
      else if name = "returnType" then sf.returnSlice.structName
      else if name = "originFieldName" then sf.originFieldName
      else "") accessorSlicePieces) := by
  unfold sliceField.generateAccessors
  apply expand_write _ _ _ _ _ accessorSliceTemplate_eq accessorSlicePieces_wf
  simp [accessorSlicePieces, pieceNames]

/-- The text `sliceField.generateAccessorsTest` appends: its template filled in. -/
theorem sliceField_generateAccessorsTest_eq (sf : sliceField) (ms : baseStruct) (sb : Builder) :
    sf.generateAccessorsTest ms sb = .ok (sb ++ fillPieces (fun name =>
      if name = "structName" then ms.getName
      else if name = "fieldName" then sf.fieldName
      else if name = "returnType" then sf.returnSlice.structName
      else "") accessorsSliceTestPieces) := by
  unfold sliceField.generateAccessorsTest
  apply expand_write _ _ _ _ _ accessorsSliceTestTemplate_eq accessorsSliceTestPieces_wf
  simp [accessorsSliceTestPieces, pieceNames]

/-- The text `messagePtrField.generateAccessors` appends: its template filled in. -/
theorem messagePtrField_generateAccessors_eq (uni : Char → Char) (mf : messagePtrField) (ms : baseStruct) (sb : Builder) :
    mf.generateAccessors uni ms sb = .ok (sb ++ fillPieces (fun name =>
      if name = "structName" then ms.getName
      else if name = "fieldName" then mf.fieldName
      else if name = "lowerFieldName" then ToLower uni mf.fieldName
      else if name = "returnType" then mf.returnMessage.structName
      else if name = "structOriginFullName" then mf.returnMessage.originFullName
      else if name = "originFieldName" then mf.originFieldName
      else "") accessorsMessagePtrPieces) := by
  unfold messagePtrField.generateAccessors
  apply expand_write _ _ _ _ _ accessorsMessagePtrTemplate_eq accessorsMessagePtrPieces_wf
  simp [accessorsMessagePtrPieces, pieceNames]

/-- The text `messagePtrField.generateAccessorsTest` appends: its template filled in. -/
theorem messagePtrField_generateAccessorsTest_eq (mf : messagePtrField) (ms : baseStruct) (sb : Builder) :
    mf.generateAccessorsTest ms sb = .ok (sb ++ fillPieces (fun name =>
      if name = "structName" then ms.getName
      else if name = "fieldName" then mf.fieldName
      else if name = "returnType" then mf.returnMessage.structName
      else "") accessorsMessagePtrTestPieces) := by
  unfold messagePtrField.generateAccessorsTest
  apply expand_write _ _ _ _ _ accessorsMessagePtrTestTemplate_eq accessorsMessagePtrTestPieces_wf
  simp [accessorsMessagePtrTestPieces, pieceNames]

/-- The text `messageValueField.generateAccessors` appends: its template filled in. -/
theorem messageValueField_generateAccessors_eq (uni : Char → Char) (mf : messageValueField) (ms : baseStruct) (sb : Builder) :
    mf.generateAccessors uni ms sb = .ok (sb ++ fillPieces (fun name =>
      if name = "structName" then ms.getName
      else if name = "fieldName" then mf.fieldName
      else if name = "lowerFieldName" then ToLower uni mf.fieldName
      else if name = "returnType" then mf.returnMessage.structName
      else if name = "structOriginFullName" then mf.returnMessage.originFullName
      else if name = "originFieldName" then mf.originFieldName
      else "") accessorsMessageValuePieces) := by
  unfold messageValueField.generateAccessors
  apply expand_write _ _ _ _ _ accessorsMessageValueTemplate_eq accessorsMessageValuePieces_wf
  simp [accessorsMessageValuePieces, pieceNames]

/-- The text `messageValueField.generateAccessorsTest` appends: its template filled in. -/
theorem messageValueField_generateAccessorsTest_eq (mf : messageValueField) (ms : baseStruct) (sb : Builder) :
    mf.generateAccessorsTest ms sb = .ok (sb ++ fillPieces (fun name =>
      if name = "structName" then ms.getName
      else if name = "fieldName" then mf.fieldName
      else if name = "returnType" then mf.returnMessage.structName
      else "") accessorsMessageValueTestPieces) := by
  unfold messageValueField.generateAccessorsTest
  apply expand_write _ _ _ _ _ accessorsMessageValueTestTemplate_eq accessorsMessageValueTestPieces_wf
  simp [accessorsMessageValueTestPieces, pieceNames]

/-- The text `primitiveField.generateAccessors` appends: its template filled in. -/
theorem primitiveField_generateAccessors_eq (uni : Char → Char) (pf : primitiveField) (ms : baseStruct) (sb : Builder) :
    pf.generateAccessors uni ms sb = .ok (sb ++ fillPieces (fun name =>
      if name = "structName" then ms.getName
      else if name = "fieldName" then pf.fieldName
      else if name = "lowerFieldName" then ToLower uni pf.fieldName
      else if name = "returnType" then pf.returnType
      else if name = "originFieldName" then pf.originFieldName
      else "") accessorsPrimitivePieces) := by
  unfold primitiveField.generateAccessors
  apply expand_write _ _ _ _ _ accessorsPrimitiveTemplate_eq accessorsPrimitivePieces_wf
  simp [accessorsPrimitivePieces, pieceNames]

/-- The text `primitiveField.generateAccessorsTest` appends: its template filled in. -/
theorem primitiveField_generateAccessorsTest_eq (pf : primitiveField) (ms : baseStruct) (sb : Builder) :
    pf.generateAccessorsTest ms sb = .ok (sb ++ fillPieces (fun name =>
      if name = "structName" then ms.getName
      else if name = "defaultVal" then pf.defaultVal
      else if name = "fieldName" then pf.fieldName
      else if name = "testValue" then pf.testVal
      else "") accessorsPrimitiveTestPieces) := by
  unfold primitiveField.generateAccessorsTest
  apply expand_write _ _ _ _ _ accessorsPrimitiveTestTemplate_eq accessorsPrimitiveTestPieces_wf
  simp [accessorsPrimitiveTestPieces, pieceNames]

/-- The text `primitiveTypedField.generateAccessorsTest` appends: its template filled in. -/
theorem primitiveTypedField_generateAccessorsTest_eq (ptf : primitiveTypedField) (ms : baseStruct) (sb : Builder) :
    ptf.generateAccessorsTest ms sb = .ok (sb ++ fillPieces (fun name =>
      if name = "structName" then ms.getName
      else if name = "defaultVal" then ptf.defaultVal
      else if name = "fieldName" then ptf.fieldName
      else if name = "testValue" then ptf.testVal
      else "") accessorsPrimitiveTestPieces) := by
  unfold primitiveTypedField.generateAccessorsTest
  apply expand_write _ _ _ _ _ accessorsPrimitiveTestTemplate_eq accessorsPrimitiveTestPieces_wf
  simp [accessorsPrimitiveTestPieces, pieceNames]

/-- The text `primitiveTypedField.generateAccessors` appends: the template
chosen by `manualSetter`, filled in. -/
theorem primitiveTypedField_generateAccessors_eq (uni : Char → Char) (ptf : primitiveTypedField)
    (ms : baseStruct) (sb : Builder) :
    ptf.generateAccessors uni ms sb = .ok (sb ++ fillPieces (fun name =>
      if name = "structName" then ms.getName
      else if name = "fieldName" then ptf.fieldName
      else if name = "lowerFieldName" then ToLower uni ptf.fieldName
      else if name = "returnType" then ptf.returnType
      else if name = "rawType" then ptf.rawType
      else if name = "originFieldName" then ptf.originFieldName
      else "")
      (if ptf.manualSetter then accessorsPrimitiveWithoutSetterTypedPieces
       else accessorsPrimitiveTypedPieces)) := by
  unfold primitiveTypedField.generateAccessors
  cases h : ptf.manualSetter
  · apply expand_write _ _ _ _ _ accessorsPrimitiveTypedTemplate_eq
      accessorsPrimitiveTypedPieces_wf
    simp [accessorsPrimitiveTypedPieces, pieceNames]
  · apply expand_write _ _ _ _ _ accessorsPrimitiveWithoutSetterTypedTemplate_eq
      accessorsPrimitiveWithoutSetterTypedPieces_wf
    simp [accessorsPrimitiveWithoutSetterTypedPieces, pieceNames]

/-! ## Lemmas on names and occurrences -/

theorem mem_afterEach (c : Char) :
    ∀ (l a b : List Char), l = a ++ c :: b → b ∈ afterEach c l := by
  intro l
  induction l with
  | nil => intro a b h; simp at h
  | cons x xs ih =>
    intro a b h
    cases a with
    | nil =>
      simp only [List.nil_append, List.cons.injEq] at h
      simp [afterEach, h.1, h.2]
    | cons y a =>
      simp only [List.cons_append, List.cons.injEq] at h
      have := ih a b h.2
      unfold afterEach
      split
      · exact List.mem_cons_of_mem _ this
      · exact this

theorem afterEach_append (c : Char) (y : List Char) :
    ∀ x : List Char, afterEach c (x ++ y) = (afterEach c x).map (fun b => b ++ y) ++ afterEach c y := by
  intro x
  induction x with
  | nil => simp [afterEach]
  | cons a x ih =>
    by_cases h : a = c <;> simp [afterEach, h, ih]

theorem afterEach_of_not_mem (c : Char) :
    ∀ x : List Char, c ∉ x → afterEach c x = [] := by
  intro x
  induction x with
  | nil => intro _; rfl
  | cons a x ih =>
    intro h
    have h1 : a ≠ c := fun e => h (by simp [e])
    have h2 : c ∉ x := fun e => h (List.mem_cons_of_mem _ e)
    simp [afterEach, h1, ih h2]

/-- The first character with property `p` cuts a text in one way only. -/
theorem split_first {p : Char → Prop} :
    ∀ (u v y z : List Char) (c d : Char), (∀ x ∈ u, ¬ p x) → (∀ x ∈ v, ¬ p x) → p c → p d →
      u ++ c :: y = v ++ d :: z → u = v ∧ c = d ∧ y = z := by
  intro u
  induction u with
  | nil =>
    intro v y z c d _ hv hc _ h
    cases v with
    | nil => simpa using h
    | cons b v =>
      simp only [List.nil_append, List.cons_append, List.cons.injEq] at h
      exact absurd (h.1 ▸ hc) (hv b (List.mem_cons_self _ _))
  | cons a u ih =>
    intro v y z c d hu hv hc hd h
    cases v with
    | nil =>
      simp only [List.nil_append, List.cons_append, List.cons.injEq] at h
      exact absurd (h.1 ▸ hd) (hu a (List.mem_cons_self _ _))
    | cons b v =>
      simp only [List.cons_append, List.cons.injEq] at h
      have := ih v y z c d (fun x hx => hu x (List.mem_cons_of_mem _ hx))
        (fun x hx => hv x (List.mem_cons_of_mem _ hx)) hc hd h.2
      exact ⟨by rw [h.1, this.1], this.2⟩

theorem identChar_ne (c d : Char) (hc : identChar c = true) (hd : identChar d = false) : c ≠ d := by
  intro e
  rw [e, hd] at hc
  exact Bool.noConfusion hc

theorem identName_not_mem (s : String) (h : identName s = true) (d : Char)
    (hd : identChar d = false) : d ∉ s.data := by
  intro hm
  have := (List.all_eq_true.mp h) d hm
  rw [hd] at this
  exact Bool.noConfusion this

theorem identChar_asciiLower (c : Char) (h1 : 'A' ≤ c) (h2 : c ≤ 'Z') :
    identChar (Char.ofNat (c.toNat + 32)) = true := by
  have e : c = Char.ofNat c.toNat := (Char.ofNat_toNat c).symm
  have a1 : 65 ≤ c.toNat := h1
  have a2 : c.toNat ≤ 90 := h2
  generalize c.toNat = n at a1 a2
  interval_cases n <;> decide

theorem identName_ToLower (uni : Char → Char) (hu : lowerKeepsIdent uni) (s : String)
    (h : identName s = true) : identName (ToLower uni s) = true := by
  unfold identName ToLower
  rw [List.all_eq_true]
  intro c hc
  simp only [List.mem_map] at hc
  obtain ⟨a, ha, rfl⟩ := hc
  have hac := (List.all_eq_true.mp h) a ha
  by_cases h128 : a.val < 128
  · simp only [h128, if_true]
    by_cases hup : ('A' ≤ a && a ≤ 'Z') = true
    · simp only [hup, if_true]
      simp only [Bool.and_eq_true, decide_eq_true_eq] at hup
      exact identChar_asciiLower a hup.1 hup.2
    · simp only [hup]
      exact hac
  · simp only [h128, if_false]
    apply hu
    have : ¬ a.val.toNat < 128 := fun hh => h128 (by
      rw [UInt32.lt_def]; exact hh)
    have e : a.toNat = a.val.toNat := rfl
    omega

/-! ## The emitted text of each operation -/

theorem fillPieces_congr (v w : String → String) :
    ∀ ps : List Piece, (∀ n ∈ pieceNames ps, v n = w n) → fillPieces v ps = fillPieces w ps := by
  intro ps
  induction ps with
  | nil => intro _; rfl
  | cons p ps ih =>
    intro h
    cases p with
    | lit s =>
      simp only [fillPieces]
      rw [ih (fun n hn => h n (by simpa [pieceNames] using hn))]
    | var n =>
      simp only [fillPieces]
      rw [ih (fun k hk => h k (by simp [pieceNames, hk])), h n (by simp [pieceNames])]

/-- What `generateAccessors` appends is its template's pieces filled in with the
descriptor's attribute values; nothing for a `oneofField`. -/
theorem baseField.generateAccessors_fill (uni : Char → Char) (f : baseField) (ms : baseStruct)
    (sb : Builder) :
    f.generateAccessors uni ms sb =
      .ok (sb ++ fillPieces (f.placeholderValue uni ms) f.accessorsPieces) := by
  cases f with
  | slice sf =>
    simp only [baseField.generateAccessors, baseField.accessorsPieces]
    rw [sliceField_generateAccessors_eq]
    congr 2
  | messagePtr mf =>
    simp only [baseField.generateAccessors, baseField.accessorsPieces]
    rw [messagePtrField_generateAccessors_eq]
    congr 2
  | messageValue mf =>
    simp only [baseField.generateAccessors, baseField.accessorsPieces]
    rw [messageValueField_generateAccessors_eq]
    congr 2
  | primitive pf =>
    simp only [baseField.generateAccessors, baseField.accessorsPieces]
    rw [primitiveField_generateAccessors_eq]
    congr 2
  | primitiveTyped ptf =>
    simp only [baseField.generateAccessors, baseField.accessorsPieces]
    rw [primitiveTypedField_generateAccessors_eq]
    congr 2
    apply fillPieces_congr
    cases ptf.manualSetter
    · simp [accessorsPrimitiveTypedPieces, pieceNames, baseField.placeholderValue]
    · simp [accessorsPrimitiveWithoutSetterTypedPieces, pieceNames, baseField.placeholderValue]
  | oneof one =>
    simp [baseField.generateAccessors, oneofField.generateAccessors, baseField.accessorsPieces,
      fillPieces]

/-- What `generateAccessorsTest` appends is its template's pieces filled in with
the descriptor's attribute values; nothing for a `oneofField`. -/
theorem baseField.generateAccessorsTest_fill (uni : Char → Char) (f : baseField)
    (ms : baseStruct) (sb : Builder) :
    f.generateAccessorsTest ms sb =
      .ok (sb ++ fillPieces (f.placeholderValue uni ms) f.accessorsTestPieces) := by
  cases f with
  | slice sf =>
    simp only [baseField.generateAccessorsTest, baseField.accessorsTestPieces]
    rw [sliceField_generateAccessorsTest_eq]
    congr 2
  | messagePtr mf =>
    simp only [baseField.generateAccessorsTest, baseField.accessorsTestPieces]
    rw [messagePtrField_generateAccessorsTest_eq]
    congr 2
  | messageValue mf =>
    simp only [baseField.generateAccessorsTest, baseField.accessorsTestPieces]
    rw [messageValueField_generateAccessorsTest_eq]
    congr 2
  | primitive pf =>
    simp only [baseField.generateAccessorsTest, baseField.accessorsTestPieces]
    rw [primitiveField_generateAccessorsTest_eq]
    congr 2
  | primitiveTyped ptf =>
    simp only [baseField.generateAccessorsTest, baseField.accessorsTestPieces]
    rw [primitiveTypedField_generateAccessorsTest_eq]
    congr 2
  | oneof one =>
    simp [baseField.generateAccessorsTest, oneofField.generateAccessorsTest,
      baseField.accessorsTestPieces, fillPieces]

/-! ## Lemmas on cuts and occurrence counts -/

theorem mem_splitsAt (c : Char) :
    ∀ (l a b : List Char), (a, b) ∈ splitsAt c l ↔ l = a ++ c :: b := by
  intro l
  induction l with
  | nil => intro a b; simp [splitsAt]
  | cons x xs ih =>
    intro a b
    simp only [splitsAt, List.mem_append, List.mem_map, Prod.mk.injEq, Prod.exists]
    constructor
    · rintro (h | ⟨a', b', hm, rfl, rfl⟩)
      · by_cases hx : x = c
        · simp only [hx, if_true, List.mem_singleton, Prod.mk.injEq] at h
          simp [h.1, h.2, hx]
        · simp [hx] at h
      · rw [(ih a' b').mp hm]; rfl
    · intro h
      cases a with
      | nil =>
        simp only [List.nil_append, List.cons.injEq] at h
        left
        simp [h.1, h.2]
      | cons y a =>
        simp only [List.cons_append, List.cons.injEq] at h
        right
        exact ⟨a, b, (ih a b).mpr h.2, by rw [h.1], rfl⟩

theorem splitsAt_append (c : Char) (y : List Char) :
    ∀ x : List Char, splitsAt c (x ++ y) =
      (splitsAt c x).map (fun p => (p.1, p.2 ++ y)) ++
        (splitsAt c y).map (fun p => (x ++ p.1, p.2)) := by
  intro x
  induction x with
  | nil => simp [splitsAt]
  | cons a x ih =>
    by_cases h : a = c <;> simp [splitsAt, h, ih, Function.comp_def]

theorem splitsAt_of_not_mem (c : Char) :
    ∀ x : List Char, c ∉ x → splitsAt c x = [] := by
  intro x
  induction x with
  | nil => intro _; rfl
  | cons a x ih =>
    intro h
    have h1 : a ≠ c := fun e => h (by simp [e])
    have h2 : c ∉ x := fun e => h (List.mem_cons_of_mem _ e)
    simp [splitsAt, h1, ih h2]

theorem splitsAt_name_append (c : Char) (x y : List Char) (h : c ∉ x) :
    splitsAt c (x ++ y) = (splitsAt c y).map (fun p => (x ++ p.1, p.2)) := by
  rw [splitsAt_append, splitsAt_of_not_mem c x h]
  rfl

theorem beginsWith_iff : ∀ (p l : List Char), beginsWith p l = true ↔ ∃ t, l = p ++ t := by
  intro p
  induction p with
  | nil => intro l; simp [beginsWith]
  | cons c p ih =>
    intro l
    cases l with
    | nil => simp [beginsWith]
    | cons x xs =>
      simp only [beginsWith, Bool.and_eq_true, beq_iff_eq, ih, List.cons_append, List.cons.injEq]
      constructor
      · rintro ⟨rfl, t, rfl⟩; exact ⟨t, rfl, rfl⟩
      · rintro ⟨t, rfl, rfl⟩; exact ⟨rfl, t, rfl⟩

theorem mem_occurrences (p : List Char) :
    ∀ (l a : List Char), a ∈ occurrences p l ↔ ∃ b, l = a ++ p ++ b := by
  intro l
  induction l with
  | nil =>
    intro a
    simp only [occurrences]
    constructor
    · intro h
      by_cases hb : beginsWith p [] = true
      · simp only [hb, if_true, List.mem_singleton] at h
        subst h
        obtain ⟨t, ht⟩ := (beginsWith_iff p []).mp hb
        exact ⟨t, by simpa using ht⟩
      · simp [hb] at h
    · rintro ⟨b, hb⟩
      have h1 : a = [] := by
        cases a with
        | nil => rfl
        | cons _ _ => simp at hb
      subst h1
      have : beginsWith p [] = true := (beginsWith_iff p []).mpr ⟨b, by simpa using hb⟩
      simp [this]
  | cons x xs ih =>
    intro a
    simp only [occurrences, List.mem_append, List.mem_map]
    constructor
    · rintro (h | ⟨a', hm, rfl⟩)
      · by_cases hb : beginsWith p (x :: xs) = true
        · simp only [hb, if_true, List.mem_singleton] at h
          subst h
          obtain ⟨t, ht⟩ := (beginsWith_iff p _).mp hb
          exact ⟨t, by simpa using ht⟩
        · simp [hb] at h
      · obtain ⟨b, hb⟩ := (ih a').mp hm
        exact ⟨b, by rw [hb]; simp⟩
    · rintro ⟨b, hb⟩
      cases a with
      | nil =>
        left
        have : beginsWith p (x :: xs) = true := (beginsWith_iff p _).mpr ⟨b, by simpa using hb⟩
        simp [this]
      | cons y a =>
        right
        simp only [List.cons_append, List.cons.injEq] at hb
        exact ⟨a, (ih a).mpr ⟨b, by rw [hb.2]⟩, by rw [hb.1]⟩

theorem occurrences_lengths_sorted (p : List Char) :
    ∀ l : List Char, ((occurrences p l).map List.length).Sorted (· < ·) := by
  intro l
  induction l with
  | nil =>
    simp only [occurrences]
    split <;> simp
  | cons x xs ih =>
    simp only [occurrences, List.map_append, List.map_map]
    have h2 : (List.map (List.length ∘ fun a => x :: a) (occurrences p xs)) =
        ((occurrences p xs).map List.length).map (· + 1) := by
      simp [Function.comp_def]
    rw [h2]
    have h3 : (((occurrences p xs).map List.length).map (· + 1)).Sorted (· < ·) := by
      exact List.Pairwise.map _ (fun a b h => Nat.succ_lt_succ h) ih
    split
    · simp only [List.map_cons, List.length_nil, List.map_nil, List.singleton_append]
      exact List.sorted_cons.mpr ⟨by simp, h3⟩
    · simpa using h3

theorem occurrences_nodup (p l : List Char) : (occurrences p l).Nodup := by
  have h := (occurrences_lengths_sorted p l).nodup
  exact List.Nodup.of_map _ h

theorem occurrences_length_one (p l x : List Char)
    (h : ∀ a, a ∈ occurrences p l ↔ a = x) : (occurrences p l).length = 1 := by
  have hp : (occurrences p l).Perm [x] :=
    (List.perm_ext_iff_of_nodup (occurrences_nodup p l) (List.nodup_singleton x)).mpr
      (fun a => by simp [h a])
  simpa using hp.length_eq

theorem occurrences_length_two (p l x y : List Char) (hxy : x ≠ y)
    (h : ∀ a, a ∈ occurrences p l ↔ a = x ∨ a = y) : (occurrences p l).length = 2 := by
  have hp : (occurrences p l).Perm [x, y] :=
    (List.perm_ext_iff_of_nodup (occurrences_nodup p l) (by simp [hxy])).mpr
      (fun a => by simp [h a])
  simpa using hp.length_eq

/-- A text with no place of occurrence in `out` does not occur in `out`. -/
theorem not_occursIn_of_occurrences_nil (pat out : String)
    (h : occurrences pat.data out.data = []) : ¬ occursIn pat out := by
  rintro ⟨x, y, hxy⟩
  have hm : x ∈ occurrences pat.data out.data := (mem_occurrences _ _ x).mpr ⟨y, hxy.symm⟩
  rw [h] at hm
  exact absurd hm (List.not_mem_nil _)

/-! ## Lemmas on the warning in the accessor texts -/

set_option maxRecDepth 20000 in
/-- In the accessor text of the slice template every `func (ms ` comes right after
the warning line, when the names hold no `(`. -/
theorem slice_method_warned (S F R O a b : List Char)
    (nS : '(' ∉ S) (nF : '(' ∉ F) (nR : '(' ∉ R) (nO : '(' ∉ O) :
      "// ".data ++ (F ++ (" returns the ".data ++ (O ++ (" associated with this ".data ++ (S ++
      (".\n//\n// Important: This causes a runtime error if IsNil() returns \"true\".\nfunc (ms ".data ++
      (S ++ (") ".data ++ (F ++ ("() ".data ++ (R ++ (" \x7b\n\treturn new".data ++ (R ++
      ("(&(*ms.orig).".data ++ (O ++ (")\n\x7d".data)))))))))))))))) =
      a ++ "func (ms ".data ++ b →
    (uninitWarning ++ "\n").data <:+ a := by
  intro h
  have e : a ++ "func (ms ".data ++ b = (a ++ "func ".data) ++ '(' :: ("ms ".data ++ b) := by
    simp
  rw [e] at h
  have hm := (mem_splitsAt '(' _ _ _).mpr h
  simp [splitsAt_name_append _ _ _ nS,
    splitsAt_name_append _ _ _ nF,
    splitsAt_name_append _ _ _ nR,
    splitsAt_name_append _ _ _ nO,
    splitsAt_append, splitsAt] at hm
  have hA : a ++ "func ".data =
      (("// ".data ++ (F ++ (" returns the ".data ++ (O ++ (" associated with this ".data ++
      (S ++ (".\n//\n".data))))))) ++
        (uninitWarning ++ "\n").data) ++ "func ".data := hm.1.trans (by simp [uninitWarning])
  rw [List.append_cancel_right hA]
  exact List.suffix_append _ _

set_option maxRecDepth 20000 in
/-- The places of the warning in the accessor text of the slice template, when the
names hold no double quote. -/
theorem slice_warning_places (S F R O a : List Char)
    (nS : '"' ∉ S) (nF : '"' ∉ F) (nR : '"' ∉ R) (nO : '"' ∉ O) :
    a ∈ occurrences uninitWarning.data
      ("// ".data ++ (F ++ (" returns the ".data ++ (O ++ (" associated with this ".data ++ (S ++
      (".\n//\n// Important: This causes a runtime error if IsNil() returns \"true\".\nfunc (ms ".data ++
      (S ++ (") ".data ++ (F ++ ("() ".data ++ (R ++ (" \x7b\n\treturn new".data ++ (R ++
      ("(&(*ms.orig).".data ++ (O ++ (")\n\x7d".data))))))))))))))))) ↔
    a = "// ".data ++ (F ++ (" returns the ".data ++ (O ++ (" associated with this ".data ++ (S ++
      (".\n//\n".data)))))) := by
  rw [mem_occurrences]
  constructor
  · rintro ⟨b, h⟩
    have e : a ++ uninitWarning.data ++ b =
        (a ++ "// Important: This causes a runtime error if IsNil() returns ".data) ++
          '"' :: ("true\".".data ++ b) := by simp [uninitWarning]
    rw [e] at h
    have hm := (mem_splitsAt '"' _ _ _).mpr h
    simp [splitsAt_name_append _ _ _ nS,
    splitsAt_name_append _ _ _ nF,
    splitsAt_name_append _ _ _ nR,
    splitsAt_name_append _ _ _ nO,
      splitsAt_append, splitsAt] at hm
    exact List.append_cancel_right (hm.1.trans (by simp))
  · rintro rfl
    refine ⟨"\nfunc (ms ".data ++ (S ++ (") ".data ++ (F ++ ("() ".data ++ (R ++
      (" \x7b\n\treturn new".data ++ (R ++ ("(&(*ms.orig).".data ++ (O ++
      (")\n\x7d".data)))))))))), ?_⟩
    simp [uninitWarning]

set_option maxRecDepth 20000 in
/-- In the accessor text of the messagePtr template every `func (ms ` comes right after
the warning line, when the names hold no `(`. -/
theorem messagePtr_method_warned (S F L R O a b : List Char)
    (nS : '(' ∉ S) (nF : '(' ∉ F) (nL : '(' ∉ L) (nR : '(' ∉ R) (nO : '(' ∉ O) :
      "// ".data ++ (F ++ (" returns the ".data ++ (L ++ (" associated with this ".data ++ (S ++
      (".\n// If no ".data ++ (L ++
      (" available, it creates an empty message and associates it with this ".data ++ (S ++
      (".\n//\n//  Empty initialized ".data ++ (S ++ (" will return \"nil\" ".data ++ (R ++
      (".\n//\n// Important: This causes a runtime error if IsNil() returns \"true\".\nfunc (ms ".data ++
      (S ++ (") ".data ++ (F ++ ("() ".data ++ (R ++ (" \x7b\n\treturn new".data ++ (R ++
      ("(&(*ms.orig).".data ++ (O ++ (")\n\x7d".data)))))))))))))))))))))))) =
      a ++ "func (ms ".data ++ b →
    (uninitWarning ++ "\n").data <:+ a := by
  intro h
  have e : a ++ "func (ms ".data ++ b = (a ++ "func ".data) ++ '(' :: ("ms ".data ++ b) := by
    simp
  rw [e] at h
  have hm := (mem_splitsAt '(' _ _ _).mpr h
  simp [splitsAt_name_append _ _ _ nS,
    splitsAt_name_append _ _ _ nF,
    splitsAt_name_append _ _ _ nL,
    splitsAt_name_append _ _ _ nR,
    splitsAt_name_append _ _ _ nO,
    splitsAt_append, splitsAt] at hm
  have hA : a ++ "func ".data =
      (("// ".data ++ (F ++ (" returns the ".data ++ (L ++ (" associated with this ".data ++
      (S ++ (".\n// If no ".data ++ (L ++
      (" available, it creates an empty message and associates it with this ".data ++ (S ++
      (".\n//\n//  Empty initialized ".data ++ (S ++ (" will return \"nil\" ".data ++ (R ++
      (".\n//\n".data))))))))))))))) ++
        (uninitWarning ++ "\n").data) ++ "func ".data := hm.1.trans (by simp [uninitWarning])
  rw [List.append_cancel_right hA]
  exact List.suffix_append _ _

set_option maxRecDepth 20000 in
/-- The places of the warning in the accessor text of the messagePtr template, when the
names hold no double quote. -/
theorem messagePtr_warning_places (S F L R O a : List Char)
    (nS : '"' ∉ S) (nF : '"' ∉ F) (nL : '"' ∉ L) (nR : '"' ∉ R) (nO : '"' ∉ O) :
    a ∈ occurrences uninitWarning.data
      ("// ".data ++ (F ++ (" returns the ".data ++ (L ++ (" associated with this ".data ++ (S ++
      (".\n// If no ".data ++ (L ++
      (" available, it creates an empty message and associates it with this ".data ++ (S ++
      (".\n//\n//  Empty initialized ".data ++ (S ++ (" will return \"nil\" ".data ++ (R ++
      (".\n//\n// Important: This causes a runtime error if IsNil() returns \"true\".\nfunc (ms ".data ++
      (S ++ (") ".data ++ (F ++ ("() ".data ++ (R ++ (" \x7b\n\treturn new".data ++ (R ++
      ("(&(*ms.orig).".data ++ (O ++ (")\n\x7d".data))))))))))))))))))))))))) ↔
    a = "// ".data ++ (F ++ (" returns the ".data ++ (L ++ (" associated with this ".data ++ (S ++
      (".\n// If no ".data ++ (L ++
      (" available, it creates an empty message and associates it with this ".data ++ (S ++
      (".\n//\n//  Empty initialized ".data ++ (S ++ (" will return \"nil\" ".data ++ (R ++
      (".\n//\n".data)))))))))))))) := by
  rw [mem_occurrences]
  constructor
  · rintro ⟨b, h⟩
    have e : a ++ uninitWarning.data ++ b =
        (a ++ "// Important: This causes a runtime error if IsNil() returns ".data) ++
          '"' :: ("true\".".data ++ b) := by simp [uninitWarning]
    rw [e] at h
    have hm := (mem_splitsAt '"' _ _ _).mpr h
    simp [splitsAt_name_append _ _ _ nS,
    splitsAt_name_append _ _ _ nF,
    splitsAt_name_append _ _ _ nL,
    splitsAt_name_append _ _ _ nR,
    splitsAt_name_append _ _ _ nO,
      splitsAt_append, splitsAt] at hm
    exact List.append_cancel_right (hm.1.trans (by simp))
  · rintro rfl
    refine ⟨"\nfunc (ms ".data ++ (S ++ (") ".data ++ (F ++ ("() ".data ++ (R ++
      (" \x7b\n\treturn new".data ++ (R ++ ("(&(*ms.orig).".data ++ (O ++
      (")\n\x7d".data)))))))))), ?_⟩
    simp [uninitWarning]

set_option maxRecDepth 20000 in
/-- In the accessor text of the messageValue template every `func (ms ` comes right after
the warning line, when the names hold no `(`. -/
theorem messageValue_method_warned (S F L R O a b : List Char)
    (nS : '(' ∉ S) (nF : '(' ∉ F) (nL : '(' ∉ L) (nR : '(' ∉ R) (nO : '(' ∉ O) :
      "// ".data ++ (F ++ (" returns the ".data ++ (L ++ (" associated with this ".data ++ (S ++
      (".\n//\n// Important: This causes a runtime error if IsNil() returns \"true\".\nfunc (ms ".data ++
      (S ++ (") ".data ++ (F ++ ("() ".data ++ (R ++ (" \x7b\n\treturn new".data ++ (R ++
      ("(&(*ms.orig).".data ++ (O ++ (")\n\x7d".data)))))))))))))))) =
      a ++ "func (ms ".data ++ b →
    (uninitWarning ++ "\n").data <:+ a := by
  intro h
  have e : a ++ "func (ms ".data ++ b = (a ++ "func ".data) ++ '(' :: ("ms ".data ++ b) := by
    simp
  rw [e] at h
  have hm := (mem_splitsAt '(' _ _ _).mpr h
  simp [splitsAt_name_append _ _ _ nS,
    splitsAt_name_append _ _ _ nF,
    splitsAt_name_append _ _ _ nL,
    splitsAt_name_append _ _ _ nR,
    splitsAt_name_append _ _ _ nO,
    splitsAt_append, splitsAt] at hm
  have hA : a ++ "func ".data =
      (("// ".data ++ (F ++ (" returns the ".data ++ (L ++ (" associated with this ".data ++
      (S ++ (".\n//\n".data))))))) ++
        (uninitWarning ++ "\n").data) ++ "func ".data := hm.1.trans (by simp [uninitWarning])
  rw [List.append_cancel_right hA]
  exact List.suffix_append _ _

set_option maxRecDepth 20000 in
/-- The places of the warning in the accessor text of the messageValue template, when the
names hold no double quote. -/
theorem messageValue_warning_places (S F L R O a : List Char)
    (nS : '"' ∉ S) (nF : '"' ∉ F) (nL : '"' ∉ L) (nR : '"' ∉ R) (nO : '"' ∉ O) :
    a ∈ occurrences uninitWarning.data
      ("// ".data ++ (F ++ (" returns the ".data ++ (L ++ (" associated with this ".data ++ (S ++
      (".\n//\n// Important: This causes a runtime error if IsNil() returns \"true\".\nfunc (ms ".data ++
      (S ++ (") ".data ++ (F ++ ("() ".data ++ (R ++ (" \x7b\n\treturn new".data ++ (R ++
      ("(&(*ms.orig).".data ++ (O ++ (")\n\x7d".data))))))))))))))))) ↔
    a = "// ".data ++ (F ++ (" returns the ".data ++ (L ++ (" associated with this ".data ++ (S ++
      (".\n//\n".data)))))) := by
  rw [mem_occurrences]
  constructor
  · rintro ⟨b, h⟩
    have e : a ++ uninitWarning.data ++ b =
        (a ++ "// Important: This causes a runtime error if IsNil() returns ".data) ++
          '"' :: ("true\".".data ++ b) := by simp [uninitWarning]
    rw [e] at h
    have hm := (mem_splitsAt '"' _ _ _).mpr h
    simp [splitsAt_name_append _ _ _ nS,
    splitsAt_name_append _ _ _ nF,
    splitsAt_name_append _ _ _ nL,
    splitsAt_name_append _ _ _ nR,
    splitsAt_name_append _ _ _ nO,
      splitsAt_append, splitsAt] at hm
    exact List.append_cancel_right (hm.1.trans (by simp))
  · rintro rfl
    refine ⟨"\nfunc (ms ".data ++ (S ++ (") ".data ++ (F ++ ("() ".data ++ (R ++
      (" \x7b\n\treturn new".data ++ (R ++ ("(&(*ms.orig).".data ++ (O ++
      (")\n\x7d".data)))))))))), ?_⟩
    simp [uninitWarning]

set_option maxRecDepth 20000 in
/-- In the accessor text of the primitive template every `func (ms ` comes right after
the warning line, when the names hold no `(`. -/
theorem primitive_method_warned (S F L R O a b : List Char)
    (nS : '(' ∉ S) (nF : '(' ∉ F) (nL : '(' ∉ L) (nR : '(' ∉ R) (nO : '(' ∉ O) :
      "// ".data ++ (F ++ (" returns the ".data ++ (L ++ (" associated with this ".data ++ (S ++
      (".\n//\n// Important: This causes a runtime error if IsNil() returns \"true\".\nfunc (ms ".data ++
      (S ++ (") ".data ++ (F ++ ("() ".data ++ (R ++ (" \x7b\n\treturn (*ms.orig).".data ++ (O ++
      ("\n\x7d\n\n// Set".data ++ (F ++ (" replaces the ".data ++ (L ++
      (" associated with this ".data ++ (S ++
      (".\n//\n// Important: This causes a runtime error if IsNil() returns \"true\".\nfunc (ms ".data ++
      (S ++ (") Set".data ++ (F ++ ("(v ".data ++ (R ++ (") \x7b\n\t(*ms.orig).".data ++ (O ++
      (" = v\n\x7d".data)))))))))))))))))))))))))))) =
      a ++ "func (ms ".data ++ b →
    (uninitWarning ++ "\n").data <:+ a := by
  intro h
  have e : a ++ "func (ms ".data ++ b = (a ++ "func ".data) ++ '(' :: ("ms ".data ++ b) := by
    simp
  rw [e] at h
  have hm := (mem_splitsAt '(' _ _ _).mpr h
  simp [splitsAt_name_append _ _ _ nS,
    splitsAt_name_append _ _ _ nF,
    splitsAt_name_append _ _ _ nL,
    splitsAt_name_append _ _ _ nR,
    splitsAt_name_append _ _ _ nO,
    splitsAt_append, splitsAt] at hm
  rcases hm with hm | hm
  · have hA : a ++ "func ".data =
        (("// ".data ++ (F ++ (" returns the ".data ++ (L ++ (" associated with this ".data ++
        (S ++ (".\n//\n".data))))))) ++
          (uninitWarning ++ "\n").data) ++ "func ".data := hm.1.trans (by simp [uninitWarning])
    rw [List.append_cancel_right hA]
    exact List.suffix_append _ _
  · have hA : a ++ "func ".data =
        (("// ".data ++ (F ++ (" returns the ".data ++ (L ++ (" associated with this ".data ++
        (S ++
        (".\n//\n// Important: This causes a runtime error if IsNil() returns \"true\".\nfunc (ms ".data ++
        (S ++ (") ".data ++ (F ++ ("() ".data ++ (R ++ (" \x7b\n\treturn (*ms.orig).".data ++
        (O ++ ("\n\x7d\n\n// Set".data ++ (F ++ (" replaces the ".data ++ (L ++
        (" associated with this ".data ++ (S ++ (".\n//\n".data))))))))))))))))))))) ++
          (uninitWarning ++ "\n").data) ++ "func ".data := hm.1.trans (by simp [uninitWarning])
    rw [List.append_cancel_right hA]
    exact List.suffix_append _ _

set_option maxRecDepth 20000 in
/-- The places of the warning in the accessor text of the primitive template, when the
names hold no double quote. -/
theorem primitive_warning_places (S F L R O a : List Char)
    (nS : '"' ∉ S) (nF : '"' ∉ F) (nL : '"' ∉ L) (nR : '"' ∉ R) (nO : '"' ∉ O) :
    a ∈ occurrences uninitWarning.data
      ("// ".data ++ (F ++ (" returns the ".data ++ (L ++ (" associated with this ".data ++ (S ++
      (".\n//\n// Important: This causes a runtime error if IsNil() returns \"true\".\nfunc (ms ".data ++
      (S ++ (") ".data ++ (F ++ ("() ".data ++ (R ++ (" \x7b\n\treturn (*ms.orig).".data ++ (O ++
      ("\n\x7d\n\n// Set".data ++ (F ++ (" replaces the ".data ++ (L ++
      (" associated with this ".data ++ (S ++
      (".\n//\n// Important: This causes a runtime error if IsNil() returns \"true\".\nfunc (ms ".data ++
      (S ++ (") Set".data ++ (F ++ ("(v ".data ++ (R ++ (") \x7b\n\t(*ms.orig).".data ++ (O ++
      (" = v\n\x7d".data))))))))))))))))))))))))))))) ↔
    a = "// ".data ++ (F ++ (" returns the ".data ++ (L ++ (" associated with this ".data ++ (S ++
      (".\n//\n".data)))))) ∨
    a = "// ".data ++ (F ++ (" returns the ".data ++ (L ++ (" associated with this ".data ++ (S ++
      (".\n//\n// Important: This causes a runtime error if IsNil() returns \"true\".\nfunc (ms ".data ++
      (S ++ (") ".data ++ (F ++ ("() ".data ++ (R ++ (" \x7b\n\treturn (*ms.orig).".data ++ (O ++
      ("\n\x7d\n\n// Set".data ++ (F ++ (" replaces the ".data ++ (L ++
      (" associated with this ".data ++ (S ++ (".\n//\n".data)))))))))))))))))))) := by
  rw [mem_occurrences]
  constructor
  · rintro ⟨b, h⟩
    have e : a ++ uninitWarning.data ++ b =
        (a ++ "// Important: This causes a runtime error if IsNil() returns ".data) ++
          '"' :: ("true\".".data ++ b) := by simp [uninitWarning]
    rw [e] at h
    have hm := (mem_splitsAt '"' _ _ _).mpr h
    simp [splitsAt_name_append _ _ _ nS,
    splitsAt_name_append _ _ _ nF,
    splitsAt_name_append _ _ _ nL,
    splitsAt_name_append _ _ _ nR,
    splitsAt_name_append _ _ _ nO,
      splitsAt_append, splitsAt] at hm
    rcases hm with hm | hm
    · exact Or.inl (List.append_cancel_right (hm.1.trans (by simp)))
    · exact Or.inr (List.append_cancel_right (hm.1.trans (by simp)))
  · rintro (rfl | rfl)
    · refine ⟨"\nfunc (ms ".data ++ (S ++ (") ".data ++ (F ++ ("() ".data ++ (R ++
        (" \x7b\n\treturn (*ms.orig).".data ++ (O ++ ("\n\x7d\n\n// Set".data ++ (F ++
        (" replaces the ".data ++ (L ++ (" associated with this ".data ++ (S ++
        (".\n//\n// Important: This causes a runtime error if IsNil() returns \"true\".\nfunc (ms ".data ++
        (S ++ (") Set".data ++ (F ++ ("(v ".data ++ (R ++ (") \x7b\n\t(*ms.orig).".data ++ (O ++
        (" = v\n\x7d".data)))))))))))))))))))))), ?_⟩
      simp [uninitWarning]
    · refine ⟨"\nfunc (ms ".data ++ (S ++ (") Set".data ++ (F ++ ("(v ".data ++ (R ++
        (") \x7b\n\t(*ms.orig).".data ++ (O ++ (" = v\n\x7d".data)))))))), ?_⟩
      simp [uninitWarning]

set_option maxRecDepth 20000 in
/-- In the accessor text of the typed template every `func (ms ` comes right after
the warning line, when the names hold no `(`. -/
theorem typed_method_warned (S F L R O W a b : List Char)
    (nS : '(' ∉ S) (nF : '(' ∉ F) (nL : '(' ∉ L) (nR : '(' ∉ R) (nO : '(' ∉ O) (nW : '(' ∉ W) :
      "// ".data ++ (F ++ (" returns the ".data ++ (L ++ (" associated with this ".data ++ (S ++
      (".\n//\n// Important: This causes a runtime error if IsNil() returns \"true\".\nfunc (ms ".data ++
      (S ++ (") ".data ++ (F ++ ("() ".data ++ (R ++ (" \x7b\n\treturn ".data ++ (R ++
      ("((*ms.orig).".data ++ (O ++ (")\n\x7d\n\n// Set".data ++ (F ++ (" replaces the ".data ++
      (L ++ (" associated with this ".data ++ (S ++
      (".\n//\n// Important: This causes a runtime error if IsNil() returns \"true\".\nfunc (ms ".data ++
      (S ++ (") Set".data ++ (F ++ ("(v ".data ++ (R ++ (") \x7b\n\t(*ms.orig).".data ++ (O ++
      (" = ".data ++ (W ++ ("(v)\n\x7d".data)))))))))))))))))))))))))))))))) =
      a ++ "func (ms ".data ++ b →
    (uninitWarning ++ "\n").data <:+ a := by
  intro h
  have e : a ++ "func (ms ".data ++ b = (a ++ "func ".data) ++ '(' :: ("ms ".data ++ b) := by
    simp
  rw [e] at h
  have hm := (mem_splitsAt '(' _ _ _).mpr h
  simp [splitsAt_name_append _ _ _ nS,
    splitsAt_name_append _ _ _ nF,
    splitsAt_name_append _ _ _ nL,
    splitsAt_name_append _ _ _ nR,
    splitsAt_name_append _ _ _ nO,
    splitsAt_name_append _ _ _ nW,
    splitsAt_append, splitsAt] at hm
  rcases hm with hm | hm
  · have hA : a ++ "func ".data =
        (("// ".data ++ (F ++ (" returns the ".data ++ (L ++ (" associated with this ".data ++
        (S ++ (".\n//\n".data))))))) ++
          (uninitWarning ++ "\n").data) ++ "func ".data := hm.1.trans (by simp [uninitWarning])
    rw [List.append_cancel_right hA]
    exact List.suffix_append _ _
  · have hA : a ++ "func ".data =
        (("// ".data ++ (F ++ (" returns the ".data ++ (L ++ (" associated with this ".data ++
        (S ++
        (".\n//\n// Important: This causes a runtime error if IsNil() returns \"true\".\nfunc (ms ".data ++
        (S ++ (") ".data ++ (F ++ ("() ".data ++ (R ++ (" \x7b\n\treturn ".data ++ (R ++
        ("((*ms.orig).".data ++ (O ++ (")\n\x7d\n\n// Set".data ++ (F ++
        (" replaces the ".data ++ (L ++ (" associated with this ".data ++ (S ++
        (".\n//\n".data))))))))))))))))))))))) ++
          (uninitWarning ++ "\n").data) ++ "func ".data := hm.1.trans (by simp [uninitWarning])
    rw [List.append_cancel_right hA]
    exact List.suffix_append _ _

set_option maxRecDepth 20000 in
/-- The places of the warning in the accessor text of the typed template, when the
names hold no double quote. -/
theorem typed_warning_places (S F L R O W a : List Char)
    (nS : '"' ∉ S) (nF : '"' ∉ F) (nL : '"' ∉ L) (nR : '"' ∉ R) (nO : '"' ∉ O) (nW : '"' ∉ W) :
    a ∈ occurrences uninitWarning.data
      ("// ".data ++ (F ++ (" returns the ".data ++ (L ++ (" associated with this ".data ++ (S ++
      (".\n//\n// Important: This causes a runtime error if IsNil() returns \"true\".\nfunc (ms ".data ++
      (S ++ (") ".data ++ (F ++ ("() ".data ++ (R ++ (" \x7b\n\treturn ".data ++ (R ++
      ("((*ms.orig).".data ++ (O ++ (")\n\x7d\n\n// Set".data ++ (F ++ (" replaces the ".data ++
      (L ++ (" associated with this ".data ++ (S ++
      (".\n//\n// Important: This causes a runtime error if IsNil() returns \"true\".\nfunc (ms ".data ++
      (S ++ (") Set".data ++ (F ++ ("(v ".data ++ (R ++ (") \x7b\n\t(*ms.orig).".data ++ (O ++
      (" = ".data ++ (W ++ ("(v)\n\x7d".data))))))))))))))))))))))))))))))))) ↔
    a = "// ".data ++ (F ++ (" returns the ".data ++ (L ++ (" associated with this ".data ++ (S ++
      (".\n//\n".data)))))) ∨
    a = "// ".data ++ (F ++ (" returns the ".data ++ (L ++ (" associated with this ".data ++ (S ++
      (".\n//\n// Important: This causes a runtime error if IsNil() returns \"true\".\nfunc (ms ".data ++
      (S ++ (") ".data ++ (F ++ ("() ".data ++ (R ++ (" \x7b\n\treturn ".data ++ (R ++
      ("((*ms.orig).".data ++ (O ++ (")\n\x7d\n\n// Set".data ++ (F ++ (" replaces the ".data ++
      (L ++ (" associated with this ".data ++ (S ++ (".\n//\n".data)))))))))))))))))))))) := by
  rw [mem_occurrences]
  constructor
  · rintro ⟨b, h⟩
    have e : a ++ uninitWarning.data ++ b =
        (a ++ "// Important: This causes a runtime error if IsNil() returns ".data) ++
          '"' :: ("true\".".data ++ b) := by simp [uninitWarning]
    rw [e] at h
    have hm := (mem_splitsAt '"' _ _ _).mpr h
    simp [splitsAt_name_append _ _ _ nS,
    splitsAt_name_append _ _ _ nF,
    splitsAt_name_append _ _ _ nL,
    splitsAt_name_append _ _ _ nR,
    splitsAt_name_append _ _ _ nO,
    splitsAt_name_append _ _ _ nW,
      splitsAt_append, splitsAt] at hm
    rcases hm with hm | hm
    · exact Or.inl (List.append_cancel_right (hm.1.trans (by simp)))
    · exact Or.inr (List.append_cancel_right (hm.1.trans (by simp)))
  · rintro (rfl | rfl)
    · refine ⟨"\nfunc (ms ".data ++ (S ++ (") ".data ++ (F ++ ("() ".data ++ (R ++
        (" \x7b\n\treturn ".data ++ (R ++ ("((*ms.orig).".data ++ (O ++
        (")\n\x7d\n\n// Set".data ++ (F ++ (" replaces the ".data ++ (L ++
        (" associated with this ".data ++ (S ++
        (".\n//\n// Important: This causes a runtime error if IsNil() returns \"true\".\nfunc (ms ".data ++
        (S ++ (") Set".data ++ (F ++ ("(v ".data ++ (R ++ (") \x7b\n\t(*ms.orig).".data ++ (O ++
        (" = ".data ++ (W ++ ("(v)\n\x7d".data)))))))))))))))))))))))))), ?_⟩
      simp [uninitWarning]
    · refine ⟨"\nfunc (ms ".data ++ (S ++ (") Set".data ++ (F ++ ("(v ".data ++ (R ++
        (") \x7b\n\t(*ms.orig).".data ++ (O ++ (" = ".data ++ (W ++ ("(v)\n\x7d".data)))))))))), ?_⟩
      simp [uninitWarning]

set_option maxRecDepth 20000 in
/-- In the accessor text of the typedNoSetter template every `func (ms ` comes right after
the warning line, when the names hold no `(`. -/
theorem typedNoSetter_method_warned (S F L R O a b : List Char)
    (nS : '(' ∉ S) (nF : '(' ∉ F) (nL : '(' ∉ L) (nR : '(' ∉ R) (nO : '(' ∉ O) :
      "// ".data ++ (F ++ (" returns the ".data ++ (L ++ (" associated with this ".data ++ (S ++
      (".\n//\n// Important: This causes a runtime error if IsNil() returns \"true\".\nfunc (ms ".data ++
      (S ++ (") ".data ++ (F ++ ("() ".data ++ (R ++ (" \x7b\n\treturn ".data ++ (R ++
      ("((*ms.orig).".data ++ (O ++ (")\n\x7d".data)))))))))))))))) =
      a ++ "func (ms ".data ++ b →
    (uninitWarning ++ "\n").data <:+ a := by
  intro h
  have e : a ++ "func (ms ".data ++ b = (a ++ "func ".data) ++ '(' :: ("ms ".data ++ b) := by
    simp
  rw [e] at h
  have hm := (mem_splitsAt '(' _ _ _).mpr h
  simp [splitsAt_name_append _ _ _ nS,
    splitsAt_name_append _ _ _ nF,
    splitsAt_name_append _ _ _ nL,
    splitsAt_name_append _ _ _ nR,
    splitsAt_name_append _ _ _ nO,
    splitsAt_append, splitsAt] at hm
  have hA : a ++ "func ".data =
      (("// ".data ++ (F ++ (" returns the ".data ++ (L ++ (" associated with this ".data ++
      (S ++ (".\n//\n".data))))))) ++
        (uninitWarning ++ "\n").data) ++ "func ".data := hm.1.trans (by simp [uninitWarning])
  rw [List.append_cancel_right hA]
  exact List.suffix_append _ _

set_option maxRecDepth 20000 in
/-- The places of the warning in the accessor text of the typedNoSetter template, when the
names hold no double quote. -/
theorem typedNoSetter_warning_places (S F L R O a : List Char)
    (nS : '"' ∉ S) (nF : '"' ∉ F) (nL : '"' ∉ L) (nR : '"' ∉ R) (nO : '"' ∉ O) :
    a ∈ occurrences uninitWarning.data
      ("// ".data ++ (F ++ (" returns the ".data ++ (L ++ (" associated with this ".data ++ (S ++
      (".\n//\n// Important: This causes a runtime error if IsNil() returns \"true\".\nfunc (ms ".data ++
      (S ++ (") ".data ++ (F ++ ("() ".data ++ (R ++ (" \x7b\n\treturn ".data ++ (R ++
      ("((*ms.orig).".data ++ (O ++ (")\n\x7d".data))))))))))))))))) ↔
    a = "// ".data ++ (F ++ (" returns the ".data ++ (L ++ (" associated with this ".data ++ (S ++
      (".\n//\n".data)))))) := by
  rw [mem_occurrences]
  constructor
  · rintro ⟨b, h⟩
    have e : a ++ uninitWarning.data ++ b =
        (a ++ "// Important: This causes a runtime error if IsNil() returns ".data) ++
          '"' :: ("true\".".data ++ b) := by simp [uninitWarning]
    rw [e] at h
    have hm := (mem_splitsAt '"' _ _ _).mpr h
    simp [splitsAt_name_append _ _ _ nS,
    splitsAt_name_append _ _ _ nF,
    splitsAt_name_append _ _ _ nL,
    splitsAt_name_append _ _ _ nR,
    splitsAt_name_append _ _ _ nO,
      splitsAt_append, splitsAt] at hm
    exact List.append_cancel_right (hm.1.trans (by simp))
  · rintro rfl
    refine ⟨"\nfunc (ms ".data ++ (S ++ (") ".data ++ (F ++ ("() ".data ++ (R ++
      (" \x7b\n\treturn ".data ++ (R ++ ("((*ms.orig).".data ++ (O ++ (")\n\x7d".data)))))))))), ?_⟩
    simp [uninitWarning]

/-! ## The claims -/

/-- C1: for a descriptor of any of the six kinds, with arbitrary attribute
strings and an arbitrary struct name, `generateAccessors` and
`generateAccessorsTest` return normally: the `panic(name)` branch of the
placeholder mapping is not reached, whatever name it would carry. -/
theorem C1_no_unresolved_placeholder (uni : Char → Char) (f : baseField) (ms : baseStruct)
    (sb : Builder) :
    (∃ out, f.generateAccessors uni ms sb = .ok out) ∧
    (∃ out, f.generateAccessorsTest ms sb = .ok out) ∧
    (∀ name, f.generateAccessors uni ms sb ≠ .error name) ∧
    (∀ name, f.generateAccessorsTest ms sb ≠ .error name) := by
  rw [baseField.generateAccessors_fill uni f ms sb,
    baseField.generateAccessorsTest_fill uni f ms sb]
  refine ⟨⟨_, rfl⟩, ⟨_, rfl⟩, ?_, ?_⟩ <;> intro name h <;> cases h

theorem withoutSetter_no_setter (S F L R O x y : List Char)
    (nS : ')' ∉ S) (nF : ')' ∉ F) (nL : ')' ∉ L) (nR : ')' ∉ R) (nO : ')' ∉ O)
    (pF : '(' ∉ F) (pR : '(' ∉ R) (bF : ' ' ∉ F) (bR : ' ' ∉ R) :
    x ++ ("func (ms ".data ++ (S ++ (") Set".data ++ (F ++ ('(' :: y))))) ≠
      "// ".data ++ (F ++ (" returns the ".data ++ (L ++ (" associated with this ".data ++ (S ++
      (".\n//\n// Important: This causes a runtime error if IsNil() returns \"true\".\nfunc (ms ".data
      ++ (S ++ (") ".data ++ (F ++ ("() ".data ++ (R ++ (" \x7b\n\treturn ".data ++ (R ++
      ("((*ms.orig).".data ++ (O ++ ")\n\x7d".data))))))))))))))) := by
  intro h
  have e : x ++ ("func (ms ".data ++ (S ++ (") Set".data ++ (F ++ ('(' :: y))))) =
      (x ++ ("func (ms ".data ++ S)) ++ ')' :: (" Set".data ++ (F ++ '(' :: y)) := by simp
  rw [e] at h
  have hb := mem_afterEach ')' _ _ _ h.symm
  simp [afterEach_append, afterEach_of_not_mem _ _ nS, afterEach_of_not_mem _ _ nF,
      afterEach_of_not_mem _ _ nO, afterEach_of_not_mem _ _ nR, afterEach_of_not_mem _ _ nL,
      afterEach] at hb
  rcases hb with hb | hb
  · have := split_first (p := fun c => c = '(') ('S' :: 'e' :: 't' :: F) F _ _ '(' '('
      (by
        intro c hc
        simp only [List.mem_cons] at hc
        rcases hc with rfl | rfl | rfl | hc
        · decide
        · decide
        · decide
        · exact fun e => pF (e ▸ hc))
      (fun c hc e => pF (e ▸ hc)) rfl rfl hb
    have hl := congrArg List.length this.1
    simp only [List.length_cons] at hl
    omega
  · have := split_first (p := fun c => c = '(' ∨ c = ' ') ('S' :: 'e' :: 't' :: F) R _ _ '(' ' '
      (by
        intro c hc
        simp only [List.mem_cons] at hc
        rcases hc with rfl | rfl | rfl | hc
        · decide
        · decide
        · decide
        · rintro (rfl | rfl)
          · exact pF hc
          · exact bF hc)
      (by
        intro c hc
        rintro (rfl | rfl)
        · exact pR hc
        · exact bR hc)
      (Or.inl rfl) (Or.inr rfl) hb
    exact absurd this.2.1 (by decide)

set_option maxRecDepth 4000 in
/-- C2: a `primitiveTypedField` with identifier names on a struct with an
identifier name emits no setter header `func (ms <structName>) Set<fieldName>(`
when `manualSetter` is true, and emits it when `manualSetter` is false. -/
theorem C2_setter_suppression (uni : Char → Char) (hu : lowerKeepsIdent uni)
    (ptf : primitiveTypedField) (ms : baseStruct) (sb : Builder)
    (hS : identName ms.getName = true) (hF : identName ptf.fieldName = true)
    (hO : identName ptf.originFieldName = true) (hR : identName ptf.returnType = true) :
    ∃ out, ptf.generateAccessors uni ms sb = .ok (sb ++ out) ∧
      (ptf.manualSetter = true →
        ¬ occursIn ("func (ms " ++ ms.getName ++ ") Set" ++ ptf.fieldName ++ "(") out) ∧
      (ptf.manualSetter = false →
        occursIn ("func (ms " ++ ms.getName ++ ") Set" ++ ptf.fieldName ++ "(") out) := by
  rw [primitiveTypedField_generateAccessors_eq]
  refine ⟨_, rfl, ?_, ?_⟩
  · intro hm
    rw [hm]
    have hL := identName_ToLower uni hu _ hF
    rintro ⟨x, y, h⟩
    refine withoutSetter_no_setter ms.getName.data ptf.fieldName.data
      (ToLower uni ptf.fieldName).data ptf.returnType.data ptf.originFieldName.data x y
      (identName_not_mem _ hS _ (by decide)) (identName_not_mem _ hF _ (by decide))
      (identName_not_mem _ hL _ (by decide)) (identName_not_mem _ hR _ (by decide))
      (identName_not_mem _ hO _ (by decide)) (identName_not_mem _ hF _ (by decide))
      (identName_not_mem _ hR _ (by decide)) (identName_not_mem _ hF _ (by decide))
      (identName_not_mem _ hR _ (by decide)) ?_
    simpa [fillPieces, accessorsPrimitiveWithoutSetterTypedPieces, String.data_append] using h
  · intro hm
    rw [hm]
    refine ⟨("// " ++ ptf.fieldName ++ " returns the " ++ ToLower uni ptf.fieldName ++
      " associated with this " ++ ms.getName ++
      ".\n//\n// Important: This causes a runtime error if IsNil() returns \"true\".\nfunc (ms "
      ++ ms.getName ++ ") " ++ ptf.fieldName ++ "() " ++ ptf.returnType ++ " \x7b\n\treturn " ++
      ptf.returnType ++ "((*ms.orig)." ++ ptf.originFieldName ++ ")\n\x7d\n\n// Set" ++
      ptf.fieldName ++ " replaces the " ++ ToLower uni ptf.fieldName ++
      " associated with this " ++ ms.getName ++
      ".\n//\n// Important: This causes a runtime error if IsNil() returns \"true\".\n").data,
      ("v " ++ ptf.returnType ++ ") \x7b\n\t(*ms.orig)." ++ ptf.originFieldName ++ " = " ++
      ptf.rawType ++ "(v)\n\x7d").data, ?_⟩
    simp [fillPieces, accessorsPrimitiveTypedPieces, String.data_append]

theorem C2_setter_suppression_witness :
    ∃ out, primitiveTypedField.generateAccessors id
        ⟨"StartTime", "StartTimeUnixNano", "TimestampUnixNano", "0", "1", "uint64", true⟩
        ⟨"Span"⟩ "" = .ok ("" ++ out) ∧
      (true = true → ¬ occursIn ("func (ms " ++ "Span" ++ ") Set" ++ "StartTime" ++ "(") out) ∧
      (true = false → occursIn ("func (ms " ++ "Span" ++ ") Set" ++ "StartTime" ++ "(") out) :=
  C2_setter_suppression id (fun c h => by simp [identChar, h])
    ⟨"StartTime", "StartTimeUnixNano", "TimestampUnixNano", "0", "1", "uint64", true⟩
    ⟨"Span"⟩ "" (by decide) (by decide) (by decide) (by decide)

/-- C3: for a `oneofField`, `generateAccessors` and `generateAccessorsTest`
leave the buffer as it was, for every struct handle and every buffer content. -/
theorem C3_oneof_emits_no_accessor (one : oneofField) (ms : baseStruct) (sb : Builder) :
    one.generateAccessors ms sb = .ok sb ∧ one.generateAccessorsTest ms sb = .ok sb ∧
    (∀ uni, (baseField.oneof one).generateAccessors uni ms sb = .ok sb) ∧
    (baseField.oneof one).generateAccessorsTest ms sb = .ok sb :=
  ⟨rfl, rfl, fun _ => rfl, rfl⟩

/-- C4: for a `oneofField`, `generateCopyToValue` appends exactly one call of the
configured routine on the source and the destination underlying objects,
`"\t" ++ copyFuncName ++ "((*ms.orig), (*dest.orig))"`, and what it appends
is the same for descriptors that differ only in `originFieldName`, `testVal`
or `fillTestName`. -/
theorem C4_oneof_copy_delegates (one : oneofField) (sb : Builder) :
    one.generateCopyToValue sb =
      .ok (sb ++ ("\t" ++ one.copyFuncName ++ "((*ms.orig), (*dest.orig))")) ∧
    (∀ o t n : String, (oneofField.mk one.copyFuncName o t n).generateCopyToValue sb =
      one.generateCopyToValue sb) :=
  ⟨rfl, fun _ _ _ => rfl⟩

set_option maxRecDepth 100000 in
/-- C5, as stated, fails: in the test emitted for `StartTime` (default `0`, test
value `1234567890`) on `Span`, the setter is not called with the literal and
the getter is not asserted equal to the literal: neither
`SetStartTime(1234567890)` nor `assert.EqualValues(t, 1234567890, ms.StartTime())`
occurs in the text. -/
theorem C5_counterexample :
    ∃ out, primitiveField.generateAccessorsTest
        ⟨"StartTime", "start_time_unix_nano", "uint64", "0", "1234567890"⟩ ⟨"Span"⟩ "" =
        .ok out ∧
      ¬ occursIn "SetStartTime(1234567890)" out ∧
      ¬ occursIn "assert.EqualValues(t, 1234567890, ms.StartTime())" out := by
  refine ⟨"func TestSpan_StartTime(t *testing.T) \x7b\n" ++
       "\tms := NewSpan()\n" ++
       "\tms.InitEmpty()\n" ++
       "\tassert.EqualValues(t, 0, ms.StartTime())\n" ++
       "\ttestValStartTime := 1234567890\n" ++
       "\tms.SetStartTime(testValStartTime)\n" ++
       "\tassert.EqualValues(t, testValStartTime, ms.StartTime())\n" ++
       "\x7d", ?_, ?_, ?_⟩
  · rw [primitiveField_generateAccessorsTest_eq]
    simp [fillPieces, accessorsPrimitiveTestPieces]
  · exact not_occursIn_of_occurrences_nil _ _ (by decide)
  · exact not_occursIn_of_occurrences_nil _ _ (by decide)

/-- C5, amended: for a `primitiveField`, `generateAccessorsTest` appends a test
that asserts the getter equals the `defaultVal` literal, binds the `testVal`
literal to the local `testVal<fieldName>`, calls the setter with that local and
asserts the getter equals that local. For `StartTime` (default `0`, test value
`1234567890`) on `Span` the test asserts `0`, binds
`testValStartTime := 1234567890`, calls `SetStartTime(testValStartTime)` and
asserts `testValStartTime`. -/
theorem C5_primitive_accessor_test (pf : primitiveField) (ms : baseStruct) (sb : Builder) :
    pf.generateAccessorsTest ms sb = .ok (sb ++
      ("func Test" ++ ms.getName ++ "_" ++ pf.fieldName ++ "(t *testing.T) \x7b\n" ++
       "\tms := New" ++ ms.getName ++ "()\n" ++
       "\tms.InitEmpty()\n" ++
       "\tassert.EqualValues(t, " ++ pf.defaultVal ++ ", ms." ++ pf.fieldName ++ "())\n" ++
       "\ttestVal" ++ pf.fieldName ++ " := " ++ pf.testVal ++ "\n" ++
       "\tms.Set" ++ pf.fieldName ++ "(testVal" ++ pf.fieldName ++ ")\n" ++
       "\tassert.EqualValues(t, testVal" ++ pf.fieldName ++ ", ms." ++ pf.fieldName ++ "())\n" ++
       "\x7d")) ∧
    primitiveField.generateAccessorsTest
        ⟨"StartTime", "start_time_unix_nano", "uint64", "0", "1234567890"⟩ ⟨"Span"⟩ "" =
      .ok ("func TestSpan_StartTime(t *testing.T) \x7b\n" ++
       "\tms := NewSpan()\n" ++
       "\tms.InitEmpty()\n" ++
       "\tassert.EqualValues(t, 0, ms.StartTime())\n" ++
       "\ttestValStartTime := 1234567890\n" ++
       "\tms.SetStartTime(testValStartTime)\n" ++
       "\tassert.EqualValues(t, testValStartTime, ms.StartTime())\n" ++
       "\x7d") := by
  constructor
  · rw [primitiveField_generateAccessorsTest_eq]
    simp [fillPieces, accessorsPrimitiveTestPieces, String.append_assoc]
  · rw [primitiveField_generateAccessorsTest_eq]
    simp [fillPieces, accessorsPrimitiveTestPieces]

/-- C6: for a `primitiveField`, `generateAccessors` appends a documented getter
`func (ms <structName>) <fieldName>() <returnType>` whose body returns
`(*ms.orig).<originFieldName>` without a cast, a blank line, and a documented
setter `func (ms <structName>) Set<fieldName>(v <returnType>)` whose body
assigns `v` to `(*ms.orig).<originFieldName>`. For `StartTime` on `Span` these
are `StartTime()` and `SetStartTime(v uint64)`. -/
theorem C6_primitive_accessors (uni : Char → Char) (pf : primitiveField) (ms : baseStruct)
    (sb : Builder) :
    pf.generateAccessors uni ms sb = .ok (sb ++
      ("// " ++ pf.fieldName ++ " returns the " ++ ToLower uni pf.fieldName ++
         " associated with this " ++ ms.getName ++ ".\n" ++
       "//\n" ++
       "// Important: This causes a runtime error if IsNil() returns \"true\".\n" ++
       "func (ms " ++ ms.getName ++ ") " ++ pf.fieldName ++ "() " ++ pf.returnType ++ " \x7b\n" ++
       "\treturn (*ms.orig)." ++ pf.originFieldName ++ "\n" ++
       "\x7d\n" ++
       "\n" ++
       "// Set" ++ pf.fieldName ++ " replaces the " ++ ToLower uni pf.fieldName ++
         " associated with this " ++ ms.getName ++ ".\n" ++
       "//\n" ++
       "// Important: This causes a runtime error if IsNil() returns \"true\".\n" ++
       "func (ms " ++ ms.getName ++ ") Set" ++ pf.fieldName ++ "(v " ++ pf.returnType ++
         ") \x7b\n" ++
       "\t(*ms.orig)." ++ pf.originFieldName ++ " = v\n" ++
       "\x7d")) ∧
    primitiveField.generateAccessors uni
        ⟨"StartTime", "start_time_unix_nano", "uint64", "0", "1234567890"⟩ ⟨"Span"⟩ "" =
      .ok ("// StartTime returns the starttime associated with this Span.\n" ++
       "//\n" ++
       "// Important: This causes a runtime error if IsNil() returns \"true\".\n" ++
       "func (ms Span) StartTime() uint64 \x7b\n" ++
       "\treturn (*ms.orig).start_time_unix_nano\n" ++
       "\x7d\n" ++
       "\n" ++
       "// SetStartTime replaces the starttime associated with this Span.\n" ++
       "//\n" ++
       "// Important: This causes a runtime error if IsNil() returns \"true\".\n" ++
       "func (ms Span) SetStartTime(v uint64) \x7b\n" ++
       "\t(*ms.orig).start_time_unix_nano = v\n" ++
       "\x7d") := by
  constructor
  · rw [primitiveField_generateAccessors_eq]
    simp [fillPieces, accessorsPrimitivePieces, String.append_assoc]
  · rw [primitiveField_generateAccessors_eq]
    have hl : ToLower uni "StartTime" = "starttime" := by
      simp [ToLower]
    simp [fillPieces, accessorsPrimitivePieces, hl]

set_option maxRecDepth 8000 in
/-- C7: for a `messagePtrField` with field name `F` and nested type `R`,
`generateAccessorsTest` appends the test header followed, in this order, by the
assertion that `ms.F().IsNil()` is true, the initialization
`ms.F().InitEmpty()`, the assertion that `ms.F().IsNil()` is false, the fill
call `fillTestR(ms.F())` and the equality assertion of `ms.F()` against
`generateTestR()`. For `Status` of type `SpanStatus` on `Span` the test asserts
`ms.Status().IsNil()` true before `InitEmpty()` and false after. -/
theorem C7_messagePtr_accessor_test (mf : messagePtrField) (ms : baseStruct) (sb : Builder) :
    mf.generateAccessorsTest ms sb = .ok (sb ++
      ("func Test" ++ ms.getName ++ "_" ++ mf.fieldName ++ "(t *testing.T) \x7b\n" ++
       "\tms := New" ++ ms.getName ++ "()\n" ++
       "\tms.InitEmpty()\n" ++
       "\t" ++ ("assert.True(t, ms." ++ mf.fieldName ++ "().IsNil())") ++ "\n" ++
       "\t" ++ ("ms." ++ mf.fieldName ++ "().InitEmpty()") ++ "\n" ++
       "\t" ++ ("assert.False(t, ms." ++ mf.fieldName ++ "().IsNil())") ++ "\n" ++
       "\t" ++ ("fillTest" ++ mf.returnMessage.structName ++ "(ms." ++ mf.fieldName ++ "())") ++
         "\n" ++
       "\t" ++ ("assert.EqualValues(t, generateTest" ++ mf.returnMessage.structName ++
         "(), ms." ++ mf.fieldName ++ "())") ++ "\n" ++
       "\x7d")) ∧
    messagePtrField.generateAccessorsTest ⟨"Status", "Status", ⟨"SpanStatus", "otlptrace.Status"⟩⟩
        ⟨"Span"⟩ "" =
      .ok ("func TestSpan_Status(t *testing.T) \x7b\n" ++
       "\tms := NewSpan()\n" ++
       "\tms.InitEmpty()\n" ++
       "\tassert.True(t, ms.Status().IsNil())\n" ++
       "\tms.Status().InitEmpty()\n" ++
       "\tassert.False(t, ms.Status().IsNil())\n" ++
       "\tfillTestSpanStatus(ms.Status())\n" ++
       "\tassert.EqualValues(t, generateTestSpanStatus(), ms.Status())\n" ++
       "\x7d") := by
  constructor
  · rw [messagePtrField_generateAccessorsTest_eq]
    refine congrArg Except.ok (String.ext ?_)
    simp [fillPieces, accessorsMessagePtrTestPieces, String.data_append]
  · rw [messagePtrField_generateAccessorsTest_eq]
    simp [fillPieces, accessorsMessagePtrTestPieces]

/-- The text `).` occurs nowhere in the test emitted for a slice field whose
names hold no `)`. -/
theorem sliceTest_no_paren_dot (S F R x y : List Char)
    (nS : ')' ∉ S) (nF : ')' ∉ F) (nR : ')' ∉ R) :
    x ++ ')' :: '.' :: y ≠
      "func Test".data ++ (S ++ ("_".data ++ (F ++ ("(t *testing.T) \x7b\n\tms := New".data ++ (S ++
      ("()\n\tms.InitEmpty()\n\tassert.EqualValues(t, New".data ++ (R ++ ("(), ms.".data ++ (F ++
      ("())\n\tfillTest".data ++ (R ++ ("(ms.".data ++ (F ++ ("())\n\ttestVal".data ++ (F ++
      (" := generateTest".data ++ (R ++ ("()\n\tassert.EqualValues(t, testVal".data ++ (F ++
      (", ms.".data ++ (F ++ "())\n\x7d".data))))))))))))))))))))) := by
  intro h
  have hb := mem_afterEach ')' _ _ _ h.symm
  simp [afterEach_append, afterEach_of_not_mem _ _ nS, afterEach_of_not_mem _ _ nF,
      afterEach_of_not_mem _ _ nR, afterEach] at hb

/-- The text `).` occurs nowhere in the test emitted for a message value field
whose names hold no `)`. -/
theorem messageValueTest_no_paren_dot (S F R x y : List Char)
    (nS : ')' ∉ S) (nF : ')' ∉ F) (nR : ')' ∉ R) :
    x ++ ')' :: '.' :: y ≠
      "func Test".data ++ (S ++ ("_".data ++ (F ++ ("(t *testing.T) \x7b\n\tms := New".data ++ (S ++
      ("()\n\tms.InitEmpty()\n\tfillTest".data ++ (R ++ ("(ms.".data ++ (F ++
      ("())\n\tassert.EqualValues(t, generateTest".data ++ (R ++ ("(), ms.".data ++ (F ++
      "())\n\x7d".data))))))))))))) := by
  intro h
  have hb := mem_afterEach ')' _ _ _ h.symm
  simp [afterEach_append, afterEach_of_not_mem _ _ nS, afterEach_of_not_mem _ _ nF,
      afterEach_of_not_mem _ _ nR, afterEach] at hb

set_option maxRecDepth 8000 in
/-- C8: for a slice, message pointer and message value field named `F` of nested
type `R` on struct `S`, all names identifiers, the emitted accessor test
(a) starts with the header `func TestS_F(t *testing.T) {`, `ms := NewS()`,
`ms.InitEmpty()`; (b) holds the assertions `assert.True(t, ms.F().IsNil())` and
`assert.False(t, ms.F().IsNil())` for the message pointer field and neither of
them for the slice and the message value field; (c) ends with an
`assert.EqualValues` of `ms.F()` against `generateTestR()` (for the slice,
against `testValF`, bound to `generateTestR()` on the line before) and the
closing brace. -/
theorem C8_test_scaffolding (S F O R Q : String) (sb : Builder)
    (hS : identName S = true) (hF : identName F = true) (hR : identName R = true) :
    (∃ out, (sliceField.mk F O ⟨R⟩).generateAccessorsTest ⟨S⟩ sb = .ok (sb ++ out) ∧
      startsWith out (testHeader S F) ∧
      ¬ occursIn (isNilAssertion "True" F) out ∧
      ¬ occursIn (isNilAssertion "False" F) out ∧
      endsWith out ("\ttestVal" ++ F ++ " := generateTest" ++ R ++ "()\n" ++
        "\tassert.EqualValues(t, testVal" ++ F ++ ", ms." ++ F ++ "())\n\x7d")) ∧
    (∃ out, (messagePtrField.mk F O ⟨R, Q⟩).generateAccessorsTest ⟨S⟩ sb = .ok (sb ++ out) ∧
      startsWith out (testHeader S F) ∧
      occursIn (isNilAssertion "True" F) out ∧
      occursIn (isNilAssertion "False" F) out ∧
      endsWith out
        ("\tassert.EqualValues(t, generateTest" ++ R ++ "(), ms." ++ F ++ "())\n\x7d")) ∧
    (∃ out, (messageValueField.mk F O ⟨R, Q⟩).generateAccessorsTest ⟨S⟩ sb = .ok (sb ++ out) ∧
      startsWith out (testHeader S F) ∧
      ¬ occursIn (isNilAssertion "True" F) out ∧
      ¬ occursIn (isNilAssertion "False" F) out ∧
      endsWith out
        ("\tassert.EqualValues(t, generateTest" ++ R ++ "(), ms." ++ F ++ "())\n\x7d")) := by
  have nS := identName_not_mem _ hS ')' (by decide)
  have nF := identName_not_mem _ hF ')' (by decide)
  have nR := identName_not_mem _ hR ')' (by decide)
  refine ⟨?_, ?_, ?_⟩
  · rw [sliceField_generateAccessorsTest_eq]
    refine ⟨_, rfl, ?_, ?_, ?_, ?_⟩
    · refine ⟨("\tassert.EqualValues(t, New" ++ R ++ "(), ms." ++ F ++ "())\n\tfillTest" ++ R ++
        "(ms." ++ F ++ "())\n\ttestVal" ++ F ++ " := generateTest" ++ R ++
        "()\n\tassert.EqualValues(t, testVal" ++ F ++ ", ms." ++ F ++ "())\n\x7d").data, ?_⟩
      simp [fillPieces, accessorsSliceTestPieces, testHeader, String.data_append]
    · rintro ⟨x, y, h⟩
      refine sliceTest_no_paren_dot S.data F.data R.data
        (x ++ ("assert.True(t, ms.".data ++ (F.data ++ ['(']))) ("IsNil())".data ++ y)
        nS nF nR ?_
      simpa [fillPieces, accessorsSliceTestPieces, isNilAssertion, String.data_append] using h
    · rintro ⟨x, y, h⟩
      refine sliceTest_no_paren_dot S.data F.data R.data
        (x ++ ("assert.False(t, ms.".data ++ (F.data ++ ['(']))) ("IsNil())".data ++ y)
        nS nF nR ?_
      simpa [fillPieces, accessorsSliceTestPieces, isNilAssertion, String.data_append] using h
    · refine ⟨("func Test" ++ S ++ "_" ++ F ++ "(t *testing.T) \x7b\n\tms := New" ++ S ++
        "()\n\tms.InitEmpty()\n\tassert.EqualValues(t, New" ++ R ++ "(), ms." ++ F ++
        "())\n\tfillTest" ++ R ++ "(ms." ++ F ++ "())\n").data, ?_⟩
      simp [fillPieces, accessorsSliceTestPieces, String.data_append]
  · rw [messagePtrField_generateAccessorsTest_eq]
    refine ⟨_, rfl, ?_, ?_, ?_, ?_⟩
    · refine ⟨("\tassert.True(t, ms." ++ F ++ "().IsNil())\n\tms." ++ F ++
        "().InitEmpty()\n\tassert.False(t, ms." ++ F ++ "().IsNil())\n\tfillTest" ++ R ++
        "(ms." ++ F ++ "())\n\tassert.EqualValues(t, generateTest" ++ R ++ "(), ms." ++ F ++
        "())\n\x7d").data, ?_⟩
      simp [fillPieces, accessorsMessagePtrTestPieces, testHeader, String.data_append]
    · refine ⟨("func Test" ++ S ++ "_" ++ F ++ "(t *testing.T) \x7b\n\tms := New" ++ S ++
        "()\n\tms.InitEmpty()\n\t").data,
        ("\n\tms." ++ F ++
        "().InitEmpty()\n\tassert.False(t, ms." ++ F ++ "().IsNil())\n\tfillTest" ++ R ++
        "(ms." ++ F ++ "())\n\tassert.EqualValues(t, generateTest" ++ R ++ "(), ms." ++ F ++
        "())\n\x7d").data, ?_⟩
      simp [fillPieces, accessorsMessagePtrTestPieces, isNilAssertion, String.data_append]
    · refine ⟨("func Test" ++ S ++ "_" ++ F ++ "(t *testing.T) \x7b\n\tms := New" ++ S ++
        "()\n\tms.InitEmpty()\n\tassert.True(t, ms." ++ F ++ "().IsNil())\n\tms." ++ F ++
        "().InitEmpty()\n\t").data,
        ("\n\tfillTest" ++ R ++
        "(ms." ++ F ++ "())\n\tassert.EqualValues(t, generateTest" ++ R ++ "(), ms." ++ F ++
        "())\n\x7d").data, ?_⟩
      simp [fillPieces, accessorsMessagePtrTestPieces, isNilAssertion, String.data_append]
    · refine ⟨("func Test" ++ S ++ "_" ++ F ++ "(t *testing.T) \x7b\n\tms := New" ++ S ++
        "()\n\tms.InitEmpty()\n\tassert.True(t, ms." ++ F ++ "().IsNil())\n\tms." ++ F ++
        "().InitEmpty()\n\tassert.False(t, ms." ++ F ++ "().IsNil())\n\tfillTest" ++ R ++
        "(ms." ++ F ++ "())\n").data, ?_⟩
      simp [fillPieces, accessorsMessagePtrTestPieces, String.data_append]
  · rw [messageValueField_generateAccessorsTest_eq]
    refine ⟨_, rfl, ?_, ?_, ?_, ?_⟩
    · refine ⟨("\tfillTest" ++ R ++
        "(ms." ++ F ++ "())\n\tassert.EqualValues(t, generateTest" ++ R ++ "(), ms." ++ F ++
        "())\n\x7d").data, ?_⟩
      simp [fillPieces, accessorsMessageValueTestPieces, testHeader, String.data_append]
    · rintro ⟨x, y, h⟩
      refine messageValueTest_no_paren_dot S.data F.data R.data
        (x ++ ("assert.True(t, ms.".data ++ (F.data ++ ['(']))) ("IsNil())".data ++ y)
        nS nF nR ?_
      simpa [fillPieces, accessorsMessageValueTestPieces, isNilAssertion, String.data_append]
        using h
    · rintro ⟨x, y, h⟩
      refine messageValueTest_no_paren_dot S.data F.data R.data
        (x ++ ("assert.False(t, ms.".data ++ (F.data ++ ['(']))) ("IsNil())".data ++ y)
        nS nF nR ?_
      simpa [fillPieces, accessorsMessageValueTestPieces, isNilAssertion, String.data_append]
        using h
    · refine ⟨("func Test" ++ S ++ "_" ++ F ++ "(t *testing.T) \x7b\n\tms := New" ++ S ++
        "()\n\tms.InitEmpty()\n\tfillTest" ++ R ++ "(ms." ++ F ++ "())\n").data, ?_⟩
      simp [fillPieces, accessorsMessageValueTestPieces, String.data_append]

theorem C8_test_scaffolding_witness :
    identName "Span" = true ∧ identName "Status" = true ∧ identName "SpanStatus" = true ∧
    ((∃ out, (sliceField.mk "Status" "Status" ⟨"SpanStatus"⟩).generateAccessorsTest ⟨"Span"⟩ "" =
        .ok ("" ++ out) ∧
      startsWith out (testHeader "Span" "Status") ∧
      ¬ occursIn (isNilAssertion "True" "Status") out ∧
      ¬ occursIn (isNilAssertion "False" "Status") out ∧
      endsWith out ("\ttestVal" ++ "Status" ++ " := generateTest" ++ "SpanStatus" ++ "()\n" ++
        "\tassert.EqualValues(t, testVal" ++ "Status" ++ ", ms." ++ "Status" ++ "())\n\x7d")) ∧
    (∃ out, (messagePtrField.mk "Status" "Status"
          ⟨"SpanStatus", "otlptrace.Status"⟩).generateAccessorsTest ⟨"Span"⟩ "" =
        .ok ("" ++ out) ∧
      startsWith out (testHeader "Span" "Status") ∧
      occursIn (isNilAssertion "True" "Status") out ∧
      occursIn (isNilAssertion "False" "Status") out ∧
      endsWith out
        ("\tassert.EqualValues(t, generateTest" ++ "SpanStatus" ++ "(), ms." ++ "Status" ++
          "())\n\x7d")) ∧
    (∃ out, (messageValueField.mk "Status" "Status"
          ⟨"SpanStatus", "otlptrace.Status"⟩).generateAccessorsTest ⟨"Span"⟩ "" =
        .ok ("" ++ out) ∧
      startsWith out (testHeader "Span" "Status") ∧
      ¬ occursIn (isNilAssertion "True" "Status") out ∧
      ¬ occursIn (isNilAssertion "False" "Status") out ∧
      endsWith out
        ("\tassert.EqualValues(t, generateTest" ++ "SpanStatus" ++ "(), ms." ++ "Status" ++
          "())\n\x7d"))) :=
  ⟨by decide, by decide, by decide,
    C8_test_scaffolding "Span" "Status" "Status" "SpanStatus" "otlptrace.Status" ""
      (by decide) (by decide) (by decide)⟩

/-- What `generateSetWithTestValue` appends does not depend on the buffer. -/
theorem baseField.generateSetWithTestValue_frame (f : baseField) :
    ∃ out : String, ∀ b : Builder, f.generateSetWithTestValue b = .ok (b ++ out) := by
  cases f with
  | slice sf => exact ⟨_, fun _ => rfl⟩
  | messagePtr mf =>
    refine ⟨("\ttv." ++ mf.fieldName ++ "().InitEmpty()\n") ++
      ("\tfillTest" ++ mf.returnMessage.structName ++ "(tv." ++ mf.fieldName ++ "())"),
      fun b => ?_⟩
    simp only [baseField.generateSetWithTestValue, messagePtrField.generateSetWithTestValue,
      WriteString, String.append_assoc]
  | messageValue mf => exact ⟨_, fun _ => rfl⟩
  | primitive pf => exact ⟨_, fun _ => rfl⟩
  | primitiveTyped ptf => exact ⟨_, fun _ => rfl⟩
  | oneof one =>
    refine ⟨("\t(*tv.orig)." ++ one.originFieldName ++ " = " ++ one.testVal ++ "\n") ++
      (("\ttv." ++ one.fillTestName ++ "().InitEmpty()\n") ++
      ("\tfillTest" ++ one.fillTestName ++ "(tv." ++ one.fillTestName ++ "())")), fun b => ?_⟩
    simp only [baseField.generateSetWithTestValue, oneofField.generateSetWithTestValue,
      WriteString, String.append_assoc]

/-- What `generateCopyToValue` appends does not depend on the buffer. -/
theorem baseField.generateCopyToValue_frame (f : baseField) :
    ∃ out : String, ∀ b : Builder, f.generateCopyToValue b = .ok (b ++ out) := by
  cases f <;> exact ⟨_, fun _ => rfl⟩

/-- C9: each of the four emission operations, on a descriptor of any kind and
any struct name, turns a buffer `b` into `b ++ out`, where `out` is the same
for every `b`; so the earlier content stays as a prefix, and running the
operation a second time appends the same text again. -/
theorem C9_append_only_deterministic (uni : Char → Char) (f : baseField) (ms : baseStruct) :
    ∃ o₁ o₂ o₃ o₄ : String, ∀ b : Builder,
      f.generateAccessors uni ms b = .ok (b ++ o₁) ∧
      f.generateAccessorsTest ms b = .ok (b ++ o₂) ∧
      f.generateSetWithTestValue b = .ok (b ++ o₃) ∧
      f.generateCopyToValue b = .ok (b ++ o₄) ∧
      (f.generateAccessors uni ms b >>= f.generateAccessors uni ms) = .ok (b ++ o₁ ++ o₁) ∧
      (f.generateAccessorsTest ms b >>= f.generateAccessorsTest ms) = .ok (b ++ o₂ ++ o₂) ∧
      (f.generateSetWithTestValue b >>= f.generateSetWithTestValue) = .ok (b ++ o₃ ++ o₃) ∧
      (f.generateCopyToValue b >>= f.generateCopyToValue) = .ok (b ++ o₄ ++ o₄) := by
  obtain ⟨o₃, h₃⟩ := baseField.generateSetWithTestValue_frame f
  obtain ⟨o₄, h₄⟩ := baseField.generateCopyToValue_frame f
  refine ⟨_, _, o₃, o₄, fun b => ⟨baseField.generateAccessors_fill uni f ms b,
    baseField.generateAccessorsTest_fill uni f ms b, h₃ b, h₄ b, ?_, ?_, ?_, ?_⟩⟩
  · rw [baseField.generateAccessors_fill uni f ms b]
    exact baseField.generateAccessors_fill uni f ms _
  · rw [baseField.generateAccessorsTest_fill uni f ms b]
    exact baseField.generateAccessorsTest_fill uni f ms _
  · rw [h₃ b]
    exact h₃ _
  · rw [h₄ b]
    exact h₄ _

set_option maxRecDepth 8000 in
/-- C10: the values are inserted as they are, in one pass. For a descriptor of
any kind with arbitrary attribute strings and struct name, placeholder syntax
included, `generateAccessors` and `generateAccessorsTest` return normally and
append the pieces of their template, literal text kept and each placeholder
replaced by the attribute value for its name. With `fieldName = "${bogus}"` and
struct name `"${fieldName}"` both texts appear literally in the output. -/
theorem C10_no_recursive_expansion (uni : Char → Char) (f : baseField) (ms : baseStruct)
    (sb : Builder) :
    (∀ T, f.accessorsTemplate = some T → T = renderPieces f.accessorsPieces) ∧
    (∀ T, f.accessorsTestTemplate = some T → T = renderPieces f.accessorsTestPieces) ∧
    f.generateAccessors uni ms sb =
      .ok (sb ++ fillPieces (f.placeholderValue uni ms) f.accessorsPieces) ∧
    f.generateAccessorsTest ms sb =
      .ok (sb ++ fillPieces (f.placeholderValue uni ms) f.accessorsTestPieces) ∧
    sliceField.generateAccessors ⟨"${bogus}", "$orig", ⟨"${structName}"⟩⟩ ⟨"${fieldName}"⟩ "" =
      .ok ("// ${bogus} returns the $orig associated with this ${fieldName}.\n" ++
        "//\n" ++
        "// Important: This causes a runtime error if IsNil() returns \"true\".\n" ++
        "func (ms ${fieldName}) ${bogus}() ${structName} \x7b\n" ++
        "\treturn new${structName}(&(*ms.orig).$orig)\n" ++
        "\x7d") ∧
    primitiveField.generateAccessorsTest ⟨"${bogus}", "o", "${testValue}", "${x}", "$fieldName"⟩
        ⟨"${fieldName}"⟩ "" =
      .ok ("func Test${fieldName}_${bogus}(t *testing.T) \x7b\n" ++
        "\tms := New${fieldName}()\n" ++
        "\tms.InitEmpty()\n" ++
        "\tassert.EqualValues(t, ${x}, ms.${bogus}())\n" ++
        "\ttestVal${bogus} := $fieldName\n" ++
        "\tms.Set${bogus}(testVal${bogus})\n" ++
        "\tassert.EqualValues(t, testVal${bogus}, ms.${bogus}())\n" ++
        "\x7d") := by
  refine ⟨?_, ?_, baseField.generateAccessors_fill uni f ms sb,
    baseField.generateAccessorsTest_fill uni f ms sb, ?_, ?_⟩
  · intro T hT
    cases f with
    | slice sf => cases hT; exact accessorSliceTemplate_eq
    | messagePtr mf => cases hT; exact accessorsMessagePtrTemplate_eq
    | messageValue mf => cases hT; exact accessorsMessageValueTemplate_eq
    | primitive pf => cases hT; exact accessorsPrimitiveTemplate_eq
    | primitiveTyped ptf =>
      simp only [baseField.accessorsTemplate, Option.some.injEq] at hT
      subst hT
      simp only [baseField.accessorsPieces]
      cases ptf.manualSetter
      · exact accessorsPrimitiveTypedTemplate_eq
      · exact accessorsPrimitiveWithoutSetterTypedTemplate_eq
    | oneof one => cases hT
  · intro T hT
    cases f with
    | slice sf => cases hT; exact accessorsSliceTestTemplate_eq
    | messagePtr mf => cases hT; exact accessorsMessagePtrTestTemplate_eq
    | messageValue mf => cases hT; exact accessorsMessageValueTestTemplate_eq
    | primitive pf => cases hT; exact accessorsPrimitiveTestTemplate_eq
    | primitiveTyped ptf => cases hT; exact accessorsPrimitiveTestTemplate_eq
    | oneof one => cases hT
  · rw [sliceField_generateAccessors_eq]
    simp [fillPieces, accessorSlicePieces]
  · rw [primitiveField_generateAccessorsTest_eq]
    simp [fillPieces, accessorsPrimitiveTestPieces]

/-- C11: for a `oneofField`, `generateSetWithTestValue` appends exactly three
tab-indented statements: the assignment of the selector literal `testVal` to
`(*tv.orig).<originFieldName>`, then `tv.<fillTestName>().InitEmpty()`, then
`fillTest<fillTestName>(tv.<fillTestName>())`; the first two end with a newline,
the last does not. -/
theorem C11_oneof_test_value (one : oneofField) (sb : Builder) :
    one.generateSetWithTestValue sb = .ok (sb ++
      ("\t" ++ ("(*tv.orig)." ++ one.originFieldName ++ " = " ++ one.testVal) ++ "\n" ++
       "\t" ++ ("tv." ++ one.fillTestName ++ "().InitEmpty()") ++ "\n" ++
       "\t" ++ ("fillTest" ++ one.fillTestName ++ "(tv." ++ one.fillTestName ++ "())"))) := by
  refine congrArg Except.ok (String.ext ?_)
  simp [WriteString, String.data_append]

/-- C12: a slice, a message pointer and a message value field with the same
field name `F` append the same copy statement, `"\tms.F().CopyTo(dest.F())"`:
`CopyTo` is called on the accessor of the source `ms` with the accessor of the
destination `dest`, whatever the origin field name and the nested type are. -/
theorem C12_message_copy (F : String) (o₁ o₂ o₃ : String) (r₁ : sliceStruct)
    (r₂ : messagePtrStruct) (r₃ : messageValueStruct) (sb : Builder) :
    (sliceField.mk F o₁ r₁).generateCopyToValue sb =
      .ok (sb ++ ("\tms." ++ F ++ "().CopyTo(dest." ++ F ++ "())")) ∧
    (messagePtrField.mk F o₂ r₂).generateCopyToValue sb =
      .ok (sb ++ ("\tms." ++ F ++ "().CopyTo(dest." ++ F ++ "())")) ∧
    (messageValueField.mk F o₃ r₃).generateCopyToValue sb =
      .ok (sb ++ ("\tms." ++ F ++ "().CopyTo(dest." ++ F ++ "())")) :=
  ⟨rfl, rfl, rfl⟩

/-- C13: with the same field name `F` and nested type name `R`, a message value
field appends the test-value statement `"\tfillTestR(tv.F())"`, which is what a
slice field with those names appends, and a message pointer field appends the
line `"\ttv.F().InitEmpty()\n"` followed by that same statement. -/
theorem C13_message_test_value (F R : String) (o₁ o₂ o₃ q₂ q₃ : String) (sb : Builder) :
    (messageValueField.mk F o₃ ⟨R, q₃⟩).generateSetWithTestValue sb =
      .ok (sb ++ ("\tfillTest" ++ R ++ "(tv." ++ F ++ "())")) ∧
    (sliceField.mk F o₁ ⟨R⟩).generateSetWithTestValue sb =
      (messageValueField.mk F o₃ ⟨R, q₃⟩).generateSetWithTestValue sb ∧
    (messagePtrField.mk F o₂ ⟨R, q₂⟩).generateSetWithTestValue sb =
      .ok (sb ++ (("\ttv." ++ F ++ "().InitEmpty()\n") ++
        ("\tfillTest" ++ R ++ "(tv." ++ F ++ "())"))) ∧
    (messagePtrField.mk F o₂ ⟨R, q₂⟩).generateSetWithTestValue sb =
      (messageValueField.mk F o₃ ⟨R, q₃⟩).generateSetWithTestValue
        (sb ++ ("\ttv." ++ F ++ "().InitEmpty()\n")) := by
  refine ⟨rfl, rfl, ?_, rfl⟩
  simp only [messagePtrField.generateSetWithTestValue, WriteString, String.append_assoc]

set_option maxRecDepth 20000 in
/-- C14: with identifier names, in the text `generateAccessors` appends for a
slice, message pointer, message value, primitive and typed primitive field,
every method declaration `func (ms ` comes right after the comment line
`// Important: This causes a runtime error if IsNil() returns "true".`; that
warning occurs exactly twice for a primitive field and for a typed primitive
field with `manualSetter` false (getter and setter), and exactly once for the
slice, message pointer and message value fields and for a typed primitive
field with `manualSetter` true. -/
theorem C14_warning_before_every_method (uni : Char → Char) (hu : lowerKeepsIdent uni)
    (S F O R Q D V W : String) (sb : Builder)
    (hS : identName S = true) (hF : identName F = true) (hO : identName O = true)
    (hR : identName R = true) (hW : identName W = true) :
    (∃ out, (sliceField.mk F O ⟨R⟩).generateAccessors ⟨S⟩ sb = .ok (sb ++ out) ∧
      warnsBeforeEveryMethod out ∧ countOccurrences uninitWarning out = 1) ∧
    (∃ out, (messagePtrField.mk F O ⟨R, Q⟩).generateAccessors uni ⟨S⟩ sb = .ok (sb ++ out) ∧
      warnsBeforeEveryMethod out ∧ countOccurrences uninitWarning out = 1) ∧
    (∃ out, (messageValueField.mk F O ⟨R, Q⟩).generateAccessors uni ⟨S⟩ sb = .ok (sb ++ out) ∧
      warnsBeforeEveryMethod out ∧ countOccurrences uninitWarning out = 1) ∧
    (∃ out, (primitiveField.mk F O R D V).generateAccessors uni ⟨S⟩ sb = .ok (sb ++ out) ∧
      warnsBeforeEveryMethod out ∧ countOccurrences uninitWarning out = 2) ∧
    (∃ out, (primitiveTypedField.mk F O R D V W false).generateAccessors uni ⟨S⟩ sb = .ok (sb ++ out) ∧
      warnsBeforeEveryMethod out ∧ countOccurrences uninitWarning out = 2) ∧
    (∃ out, (primitiveTypedField.mk F O R D V W true).generateAccessors uni ⟨S⟩ sb = .ok (sb ++ out) ∧
      warnsBeforeEveryMethod out ∧ countOccurrences uninitWarning out = 1) := by
  have hL := identName_ToLower uni hu F hF
  have pS := identName_not_mem S hS '(' (by decide)
  have pF := identName_not_mem F hF '(' (by decide)
  have pO := identName_not_mem O hO '(' (by decide)
  have pR := identName_not_mem R hR '(' (by decide)
  have pW := identName_not_mem W hW '(' (by decide)
  have pL := identName_not_mem _ hL '(' (by decide)
  have qS := identName_not_mem S hS '"' (by decide)
  have qF := identName_not_mem F hF '"' (by decide)
  have qO := identName_not_mem O hO '"' (by decide)
  have qR := identName_not_mem R hR '"' (by decide)
  have qW := identName_not_mem W hW '"' (by decide)
  have qL := identName_not_mem _ hL '"' (by decide)
  refine ⟨?_, ?_, ?_, ?_, ?_, ?_⟩
  · rw [sliceField_generateAccessors_eq]
    refine ⟨_, rfl, ?_, ?_⟩
    · intro a b h
      have key := slice_method_warned S.data F.data R.data O.data a b
        pS pF pR pO
      exact key (by simpa [fillPieces, accessorSlicePieces, String.data_append] using h)
    · have key := fun a => slice_warning_places S.data F.data R.data O.data a
        qS qF qR qO
      have hc := occurrences_length_one _ _ _ key
      simpa [countOccurrences, fillPieces, accessorSlicePieces, String.data_append] using hc
  · rw [messagePtrField_generateAccessors_eq]
    refine ⟨_, rfl, ?_, ?_⟩
    · intro a b h
      have key := messagePtr_method_warned S.data F.data (ToLower uni F).data R.data O.data a b
        pS pF pL pR pO
      exact key (by simpa [fillPieces, accessorsMessagePtrPieces, String.data_append] using h)
    · have key := fun a => messagePtr_warning_places S.data F.data (ToLower uni F).data R.data O.data a
        qS qF qL qR qO
      have hc := occurrences_length_one _ _ _ key
      simpa [countOccurrences, fillPieces, accessorsMessagePtrPieces, String.data_append] using hc
  · rw [messageValueField_generateAccessors_eq]
    refine ⟨_, rfl, ?_, ?_⟩
    · intro a b h
      have key := messageValue_method_warned S.data F.data (ToLower uni F).data R.data O.data a b
        pS pF pL pR pO
      exact key (by simpa [fillPieces, accessorsMessageValuePieces, String.data_append] using h)
    · have key := fun a => messageValue_warning_places S.data F.data (ToLower uni F).data R.data O.data a
        qS qF qL qR qO
      have hc := occurrences_length_one _ _ _ key
      simpa [countOccurrences, fillPieces, accessorsMessageValuePieces, String.data_append] using hc
  · rw [primitiveField_generateAccessors_eq]
    refine ⟨_, rfl, ?_, ?_⟩
    · intro a b h
      have key := primitive_method_warned S.data F.data (ToLower uni F).data R.data O.data a b
        pS pF pL pR pO
      exact key (by simpa [fillPieces, accessorsPrimitivePieces, String.data_append] using h)
    · have key := fun a => primitive_warning_places S.data F.data (ToLower uni F).data R.data O.data a
        qS qF qL qR qO
      have hc := occurrences_length_two _ _ _ _ (by
        intro h
        have hl := congrArg List.length h
        simp at hl) key
      simpa [countOccurrences, fillPieces, accessorsPrimitivePieces, String.data_append] using hc
  · rw [primitiveTypedField_generateAccessors_eq]
    refine ⟨_, rfl, ?_, ?_⟩
    · intro a b h
      have key := typed_method_warned S.data F.data (ToLower uni F).data R.data O.data W.data a b
        pS pF pL pR pO pW
      exact key (by simpa [fillPieces, accessorsPrimitiveTypedPieces, String.data_append] using h)
    · have key := fun a => typed_warning_places S.data F.data (ToLower uni F).data R.data O.data W.data a
        qS qF qL qR qO qW
      have hc := occurrences_length_two _ _ _ _ (by
        intro h
        have hl := congrArg List.length h
        simp at hl) key
      simpa [countOccurrences, fillPieces, accessorsPrimitiveTypedPieces, String.data_append] using hc
  · rw [primitiveTypedField_generateAccessors_eq]
    refine ⟨_, rfl, ?_, ?_⟩
    · intro a b h
      have key := typedNoSetter_method_warned S.data F.data (ToLower uni F).data R.data O.data a b
        pS pF pL pR pO
      exact key (by simpa [fillPieces, accessorsPrimitiveWithoutSetterTypedPieces, String.data_append] using h)
    · have key := fun a => typedNoSetter_warning_places S.data F.data (ToLower uni F).data R.data O.data a
        qS qF qL qR qO
      have hc := occurrences_length_one _ _ _ key
      simpa [countOccurrences, fillPieces, accessorsPrimitiveWithoutSetterTypedPieces, String.data_append] using hc

theorem C14_warning_before_every_method_witness :
    lowerKeepsIdent id ∧ identName "Span" = true ∧ identName "Status" = true ∧
    identName "SpanStatus" = true ∧ identName "int32" = true ∧
    (    (∃ out, (sliceField.mk "Status" "Status" ⟨"SpanStatus"⟩).generateAccessors ⟨"Span"⟩ "" =
        .ok ("" ++ out) ∧
      warnsBeforeEveryMethod out ∧ countOccurrences uninitWarning out = 1) ∧
    (∃ out, (messagePtrField.mk "Status" "Status" ⟨"SpanStatus", "otlptrace.Status"⟩).generateAccessors id
        ⟨"Span"⟩ "" =
        .ok ("" ++ out) ∧
      warnsBeforeEveryMethod out ∧ countOccurrences uninitWarning out = 1) ∧
    (∃ out, (messageValueField.mk "Status" "Status" ⟨"SpanStatus", "otlptrace.Status"⟩).generateAccessors id
        ⟨"Span"⟩ "" =
        .ok ("" ++ out) ∧
      warnsBeforeEveryMethod out ∧ countOccurrences uninitWarning out = 1) ∧
    (∃ out, (primitiveField.mk "Status" "Status" "SpanStatus" "0" "1").generateAccessors id ⟨"Span"⟩ "" =
        .ok ("" ++ out) ∧
      warnsBeforeEveryMethod out ∧ countOccurrences uninitWarning out = 2) ∧
    (∃ out, (primitiveTypedField.mk "Status" "Status" "SpanStatus" "0" "1" "int32" false).generateAccessors
        id ⟨"Span"⟩ "" =
        .ok ("" ++ out) ∧
      warnsBeforeEveryMethod out ∧ countOccurrences uninitWarning out = 2) ∧
    (∃ out, (primitiveTypedField.mk "Status" "Status" "SpanStatus" "0" "1" "int32" true).generateAccessors
        id ⟨"Span"⟩ "" =
        .ok ("" ++ out) ∧
      warnsBeforeEveryMethod out ∧ countOccurrences uninitWarning out = 1)) :=
  ⟨fun c h => by simp [identChar, h], by decide, by decide, by decide, by decide,
    C14_warning_before_every_method id (fun c h => by simp [identChar, h])
      "Span" "Status" "Status" "SpanStatus" "otlptrace.Status" "0" "1" "int32" ""
      (by decide) (by decide) (by decide) (by decide) (by decide)⟩

set_option maxRecDepth 8000 in
/-- C15: for a `primitiveTypedField`, with `manualSetter` true `generateAccessors`
appends exactly the documented getter, whose body is
`return <returnType>((*ms.orig).<originFieldName>)`; with `manualSetter` false it
appends that same getter text, a blank line, and a documented setter
`func (ms <structName>) Set<fieldName>(v <returnType>)` whose body is
`(*ms.orig).<originFieldName> = <rawType>(v)`. With `manualSetter` true the
output is the same for every `rawType`. -/
theorem C15_typed_accessors (uni : Char → Char) (F O R D V W : String) (ms : baseStruct)
    (sb : Builder) :
    (primitiveTypedField.mk F O R D V W true).generateAccessors uni ms sb = .ok (sb ++
      ("// " ++ F ++ " returns the " ++ ToLower uni F ++ " associated with this " ++
         ms.getName ++ ".\n" ++
       "//\n" ++
       "// Important: This causes a runtime error if IsNil() returns \"true\".\n" ++
       "func (ms " ++ ms.getName ++ ") " ++ F ++ "() " ++ R ++ " \x7b\n" ++
       "\treturn " ++ R ++ "((*ms.orig)." ++ O ++ ")\n" ++
       "\x7d")) ∧
    (primitiveTypedField.mk F O R D V W false).generateAccessors uni ms sb = .ok (sb ++
      (("// " ++ F ++ " returns the " ++ ToLower uni F ++ " associated with this " ++
         ms.getName ++ ".\n" ++
       "//\n" ++
       "// Important: This causes a runtime error if IsNil() returns \"true\".\n" ++
       "func (ms " ++ ms.getName ++ ") " ++ F ++ "() " ++ R ++ " \x7b\n" ++
       "\treturn " ++ R ++ "((*ms.orig)." ++ O ++ ")\n" ++
       "\x7d") ++
       "\n\n" ++
       ("// Set" ++ F ++ " replaces the " ++ ToLower uni F ++ " associated with this " ++
         ms.getName ++ ".\n" ++
       "//\n" ++
       "// Important: This causes a runtime error if IsNil() returns \"true\".\n" ++
       "func (ms " ++ ms.getName ++ ") Set" ++ F ++ "(v " ++ R ++ ") \x7b\n" ++
       "\t(*ms.orig)." ++ O ++ " = " ++ W ++ "(v)\n" ++
       "\x7d"))) ∧
    (∀ W' : String, (primitiveTypedField.mk F O R D V W' true).generateAccessors uni ms sb =
      (primitiveTypedField.mk F O R D V W true).generateAccessors uni ms sb) := by
  refine ⟨?_, ?_, ?_⟩
  · rw [primitiveTypedField_generateAccessors_eq]
    refine congrArg Except.ok (String.ext ?_)
    simp [fillPieces, accessorsPrimitiveWithoutSetterTypedPieces, String.data_append]
  · rw [primitiveTypedField_generateAccessors_eq]
    refine congrArg Except.ok (String.ext ?_)
    simp [fillPieces, accessorsPrimitiveTypedPieces, String.data_append]
  · intro W'
    rw [primitiveTypedField_generateAccessors_eq, primitiveTypedField_generateAccessors_eq]
    refine congrArg Except.ok (String.ext ?_)
    simp [fillPieces, accessorsPrimitiveWithoutSetterTypedPieces, String.data_append]

/-- C16: a `primitiveTypedField` and the `primitiveField` with the same
`fieldName`, `originFieldName`, `returnType`, `defaultVal` and `testVal` append
the same text in `generateAccessorsTest`, `generateSetWithTestValue` and
`generateCopyToValue`, whatever `rawType` and `manualSetter` are; the emitted
test, test-value statement and copy statement all call `Set<fieldName>`, also
with `manualSetter` true. -/
theorem C16_typed_as_primitive (F O R D V W : String) (m : Bool) (ms : baseStruct)
    (sb : Builder) :
    (primitiveTypedField.mk F O R D V W m).generateAccessorsTest ms sb =
      (primitiveField.mk F O R D V).generateAccessorsTest ms sb ∧
    (primitiveTypedField.mk F O R D V W m).generateSetWithTestValue sb =
      (primitiveField.mk F O R D V).generateSetWithTestValue sb ∧
    (primitiveTypedField.mk F O R D V W m).generateCopyToValue sb =
      (primitiveField.mk F O R D V).generateCopyToValue sb ∧
    (∃ out, (primitiveTypedField.mk F O R D V W true).generateAccessorsTest ms sb =
        .ok (sb ++ out) ∧ occursIn ("ms.Set" ++ F ++ "(testVal" ++ F ++ ")") out) ∧
    (∃ out, (primitiveTypedField.mk F O R D V W true).generateSetWithTestValue sb =
        .ok (sb ++ out) ∧ occursIn ("tv.Set" ++ F ++ "(" ++ V ++ ")") out) ∧
    (∃ out, (primitiveTypedField.mk F O R D V W true).generateCopyToValue sb =
        .ok (sb ++ out) ∧ occursIn ("dest.Set" ++ F ++ "(ms." ++ F ++ "())") out) := by
  refine ⟨rfl, rfl, rfl, ?_, ⟨_, rfl, ?_⟩, ⟨_, rfl, ?_⟩⟩
  · rw [primitiveTypedField_generateAccessorsTest_eq]
    refine ⟨_, rfl, ?_⟩
    refine ⟨("func Test" ++ ms.getName ++ "_" ++ F ++ "(t *testing.T) \x7b\n\tms := New" ++
      ms.getName ++ "()\n\tms.InitEmpty()\n\tassert.EqualValues(t, " ++ D ++ ", ms." ++ F ++
      "())\n\ttestVal" ++ F ++ " := " ++ V ++ "\n\t").data,
      ("\n\tassert.EqualValues(t, testVal" ++ F ++ ", ms." ++ F ++ "())\n\x7d").data, ?_⟩
    simp [fillPieces, accessorsPrimitiveTestPieces, String.data_append]
  · exact ⟨['\t'], [], by simp [String.data_append]⟩
  · exact ⟨['\t'], [], by simp [String.data_append]⟩

set_option maxRecDepth 20000 in
/-- The text `"nil"` in double quotes occurs nowhere in the accessor text of the
message value template, when the names hold no double quote. -/
theorem messageValue_no_quoted_nil (S F L R O x y : List Char)
    (nS : '"' ∉ S) (nF : '"' ∉ F) (nL : '"' ∉ L) (nR : '"' ∉ R) (nO : '"' ∉ O) :
    x ++ '"' :: ("nil\"".data ++ y) ≠
      "// ".data ++ (F ++ (" returns the ".data ++ (L ++ (" associated with this ".data ++ (S ++
      (".\n//\n// Important: This causes a runtime error if IsNil() returns \"true\".\nfunc (ms ".data
      ++ (S ++ (") ".data ++ (F ++ ("() ".data ++ (R ++ (" \x7b\n\treturn new".data ++ (R ++
      ("(&(*ms.orig).".data ++ (O ++ ")\n\x7d".data))))))))))))))) := by
  intro h
  have hb := mem_afterEach '"' _ _ _ h.symm
  simp [afterEach_append, afterEach_of_not_mem _ _ nS, afterEach_of_not_mem _ _ nF,
    afterEach_of_not_mem _ _ nL, afterEach_of_not_mem _ _ nR, afterEach_of_not_mem _ _ nO,
    afterEach] at hb

/-- C17, as stated, fails: the accessor text of a message value field whose
field name is the text `"nil"`, quotes included, holds `"nil"`. -/
theorem C17_counterexample :
    ∃ out, messageValueField.generateAccessors id ⟨"\"nil\"", "o", ⟨"R", "q"⟩⟩ ⟨"S"⟩ "" = .ok out ∧
      occursIn "\"nil\"" out := by
  rw [messageValueField_generateAccessors_eq]
  refine ⟨_, rfl, "// ".data, (" returns the \"nil\" associated with this S.\n" ++
    "//\n// Important: This causes a runtime error if IsNil() returns \"true\".\n" ++
    "func (ms S) \"nil\"() R \x7b\n\treturn newR(&(*ms.orig).o)\n\x7d").data, ?_⟩
  simp [fillPieces, accessorsMessageValuePieces, ToLower]

set_option maxRecDepth 20000 in
/-- C17, amended: for every message pointer and message value field with the
same field name `F`, origin field name and nested type name `R` on the same
struct `S`, all of them arbitrary strings, the message pointer accessor text is
the message value accessor text with the lines `// If no <lower(F)> available,
it creates an empty message and associates it with this S.`, `//` and
`//  Empty initialized S will return "nil" R.` put in after the first comment
line, the rest (warning, method declaration and body
`return newR(&(*ms.orig).<originFieldName>)`) being the same; and when the
names are identifiers the message value text holds no `"nil"`. -/
theorem C17_message_value_accessor (uni : Char → Char) (S F O R Q Q' : String)
    (sb : Builder) :
    (messageValueField.mk F O ⟨R, Q⟩).generateAccessors uni ⟨S⟩ sb = .ok (sb ++
      (("// " ++ F ++ " returns the " ++ ToLower uni F ++ " associated with this " ++ S ++ ".\n") ++
       ("//\n" ++
        "// Important: This causes a runtime error if IsNil() returns \"true\".\n" ++
        "func (ms " ++ S ++ ") " ++ F ++ "() " ++ R ++ " \x7b\n" ++
        "\treturn new" ++ R ++ "(&(*ms.orig)." ++ O ++ ")\n" ++
        "\x7d"))) ∧
    (messagePtrField.mk F O ⟨R, Q'⟩).generateAccessors uni ⟨S⟩ sb = .ok (sb ++
      (("// " ++ F ++ " returns the " ++ ToLower uni F ++ " associated with this " ++ S ++ ".\n") ++
       ("// If no " ++ ToLower uni F ++
          " available, it creates an empty message and associates it with this " ++ S ++ ".\n" ++
        "//\n" ++
        "//  Empty initialized " ++ S ++ " will return \"nil\" " ++ R ++ ".\n") ++
       ("//\n" ++
        "// Important: This causes a runtime error if IsNil() returns \"true\".\n" ++
        "func (ms " ++ S ++ ") " ++ F ++ "() " ++ R ++ " \x7b\n" ++
        "\treturn new" ++ R ++ "(&(*ms.orig)." ++ O ++ ")\n" ++
        "\x7d"))) ∧
    (lowerKeepsIdent uni → identName S = true → identName F = true → identName O = true →
      identName R = true →
      ∃ out, (messageValueField.mk F O ⟨R, Q⟩).generateAccessors uni ⟨S⟩ sb = .ok (sb ++ out) ∧
        ¬ occursIn "\"nil\"" out) := by
  refine ⟨?_, ?_, ?_⟩
  · rw [messageValueField_generateAccessors_eq]
    refine congrArg Except.ok (String.ext ?_)
    simp [fillPieces, accessorsMessageValuePieces, String.data_append]
  · rw [messagePtrField_generateAccessors_eq]
    refine congrArg Except.ok (String.ext ?_)
    simp [fillPieces, accessorsMessagePtrPieces, String.data_append]
  · intro hu hS hF hO hR
    have hL := identName_ToLower uni hu F hF
    rw [messageValueField_generateAccessors_eq]
    refine ⟨_, rfl, ?_⟩
    rintro ⟨x, y, h⟩
    refine messageValue_no_quoted_nil S.data F.data (ToLower uni F).data R.data O.data x y
      (identName_not_mem S hS _ (by decide)) (identName_not_mem F hF _ (by decide))
      (identName_not_mem _ hL _ (by decide)) (identName_not_mem R hR _ (by decide))
      (identName_not_mem O hO _ (by decide)) ?_
    simpa [fillPieces, accessorsMessageValuePieces, String.data_append] using h

theorem C17_message_value_accessor_witness :
    lowerKeepsIdent id ∧ identName "Span" = true ∧ identName "Status" = true ∧
    identName "SpanStatus" = true ∧
    ((messageValueField.mk "Status" "Status" ⟨"SpanStatus", "a"⟩).generateAccessors id
        ⟨"Span"⟩ "" = .ok ("" ++
      (("// " ++ "Status" ++ " returns the " ++ ToLower id "Status" ++
          " associated with this " ++ "Span" ++ ".\n") ++
       ("//\n" ++
        "// Important: This causes a runtime error if IsNil() returns \"true\".\n" ++
        "func (ms " ++ "Span" ++ ") " ++ "Status" ++ "() " ++ "SpanStatus" ++ " \x7b\n" ++
        "\treturn new" ++ "SpanStatus" ++ "(&(*ms.orig)." ++ "Status" ++ ")\n" ++
        "\x7d"))) ∧
    (messagePtrField.mk "Status" "Status" ⟨"SpanStatus", "b"⟩).generateAccessors id
        ⟨"Span"⟩ "" = .ok ("" ++
      (("// " ++ "Status" ++ " returns the " ++ ToLower id "Status" ++
          " associated with this " ++ "Span" ++ ".\n") ++
       ("// If no " ++ ToLower id "Status" ++
          " available, it creates an empty message and associates it with this " ++ "Span" ++
          ".\n" ++
        "//\n" ++
        "//  Empty initialized " ++ "Span" ++ " will return \"nil\" " ++ "SpanStatus" ++ ".\n") ++
       ("//\n" ++
        "// Important: This causes a runtime error if IsNil() returns \"true\".\n" ++
        "func (ms " ++ "Span" ++ ") " ++ "Status" ++ "() " ++ "SpanStatus" ++ " \x7b\n" ++
        "\treturn new" ++ "SpanStatus" ++ "(&(*ms.orig)." ++ "Status" ++ ")\n" ++
        "\x7d"))) ∧
    (∃ out, (messageValueField.mk "Status" "Status" ⟨"SpanStatus", "a"⟩).generateAccessors id
        ⟨"Span"⟩ "" = .ok ("" ++ out) ∧
      ¬ occursIn "\"nil\"" out)) :=
  ⟨fun c h => by simp [identChar, h], by decide, by decide, by decide,
    (C17_message_value_accessor id "Span" "Status" "Status" "SpanStatus" "a" "b" "").1,
    (C17_message_value_accessor id "Span" "Status" "Status" "SpanStatus" "a" "b" "").2.1,
    (C17_message_value_accessor id "Span" "Status" "Status" "SpanStatus" "a" "b" "").2.2
      (fun c h => by simp [identChar, h]) (by decide) (by decide) (by decide) (by decide)⟩

/-- C18: a `primitiveField` and a `primitiveTypedField` with field name `F` and
test value `V` append the copy statement `"\tdest.SetF(ms.F())"`, the setter of
the destination applied to the getter of the source, and the test-value
statement `"\ttv.SetF(V)"`, whatever the other attributes are. -/
theorem C18_primitive_copy_and_test_value (F V : String) (o r d o' r' d' w : String) (m : Bool)
    (sb : Builder) :
    (primitiveField.mk F o r d V).generateCopyToValue sb =
      .ok (sb ++ ("\tdest.Set" ++ F ++ "(ms." ++ F ++ "())")) ∧
    (primitiveTypedField.mk F o' r' d' V w m).generateCopyToValue sb =
      .ok (sb ++ ("\tdest.Set" ++ F ++ "(ms." ++ F ++ "())")) ∧
    (primitiveField.mk F o r d V).generateSetWithTestValue sb =
      .ok (sb ++ ("\ttv.Set" ++ F ++ "(" ++ V ++ ")")) ∧
    (primitiveTypedField.mk F o' r' d' V w m).generateSetWithTestValue sb =
      .ok (sb ++ ("\ttv.Set" ++ F ++ "(" ++ V ++ ")")) :=
  ⟨rfl, rfl, rfl, rfl⟩

set_option maxRecDepth 20000 in
/-- The test emitted for a descriptor that has a test function name starts with
the declaration of that function. -/
theorem test_starts_with_name (f : baseField) (ms : baseStruct) (sb : Builder) (name : String)
    (h : f.testFuncName ms = some name) :
    ∃ out, f.generateAccessorsTest ms sb = .ok (sb ++ out) ∧
      startsWith out ("func " ++ name ++ "(t *testing.T) \x7b\n") := by
  cases f with
  | slice sf =>
    simp only [baseField.testFuncName, Option.some.injEq] at h
    subst h
    simp only [baseField.generateAccessorsTest]
    rw [sliceField_generateAccessorsTest_eq]
    refine ⟨_, rfl, ("\tms := New" ++ ms.getName ++
      "()\n\tms.InitEmpty()\n\tassert.EqualValues(t, New" ++ sf.returnSlice.structName ++
      "(), ms." ++ sf.fieldName ++ "())\n\tfillTest" ++ sf.returnSlice.structName ++ "(ms." ++
      sf.fieldName ++ "())\n\ttestVal" ++ sf.fieldName ++ " := generateTest" ++
      sf.returnSlice.structName ++ "()\n\tassert.EqualValues(t, testVal" ++ sf.fieldName ++
      ", ms." ++ sf.fieldName ++ "())\n\x7d").data, ?_⟩
    simp [fillPieces, accessorsSliceTestPieces, testFuncName, String.data_append]
  | messagePtr mf =>
    simp only [baseField.testFuncName, Option.some.injEq] at h
    subst h
    simp only [baseField.generateAccessorsTest]
    rw [messagePtrField_generateAccessorsTest_eq]
    refine ⟨_, rfl, ("\tms := New" ++ ms.getName ++
      "()\n\tms.InitEmpty()\n\tassert.True(t, ms." ++ mf.fieldName ++ "().IsNil())\n\tms." ++
      mf.fieldName ++ "().InitEmpty()\n\tassert.False(t, ms." ++ mf.fieldName ++
      "().IsNil())\n\tfillTest" ++ mf.returnMessage.structName ++ "(ms." ++ mf.fieldName ++
      "())\n\tassert.EqualValues(t, generateTest" ++ mf.returnMessage.structName ++ "(), ms." ++
      mf.fieldName ++ "())\n\x7d").data, ?_⟩
    simp [fillPieces, accessorsMessagePtrTestPieces, testFuncName, String.data_append]
  | messageValue mf =>
    simp only [baseField.testFuncName, Option.some.injEq] at h
    subst h
    simp only [baseField.generateAccessorsTest]
    rw [messageValueField_generateAccessorsTest_eq]
    refine ⟨_, rfl, ("\tms := New" ++ ms.getName ++
      "()\n\tms.InitEmpty()\n\tfillTest" ++ mf.returnMessage.structName ++ "(ms." ++
      mf.fieldName ++ "())\n\tassert.EqualValues(t, generateTest" ++
      mf.returnMessage.structName ++ "(), ms." ++ mf.fieldName ++ "())\n\x7d").data, ?_⟩
    simp [fillPieces, accessorsMessageValueTestPieces, testFuncName, String.data_append]
  | primitive pf =>
    simp only [baseField.testFuncName, Option.some.injEq] at h
    subst h
    simp only [baseField.generateAccessorsTest]
    rw [primitiveField_generateAccessorsTest_eq]
    refine ⟨_, rfl, ("\tms := New" ++ ms.getName ++
      "()\n\tms.InitEmpty()\n\tassert.EqualValues(t, " ++ pf.defaultVal ++ ", ms." ++
      pf.fieldName ++ "())\n\ttestVal" ++ pf.fieldName ++ " := " ++ pf.testVal ++ "\n\tms.Set" ++
      pf.fieldName ++ "(testVal" ++ pf.fieldName ++ ")\n\tassert.EqualValues(t, testVal" ++
      pf.fieldName ++ ", ms." ++ pf.fieldName ++ "())\n\x7d").data, ?_⟩
    simp [fillPieces, accessorsPrimitiveTestPieces, testFuncName, String.data_append]
  | primitiveTyped ptf =>
    simp only [baseField.testFuncName, Option.some.injEq] at h
    subst h
    simp only [baseField.generateAccessorsTest]
    rw [primitiveTypedField_generateAccessorsTest_eq]
    refine ⟨_, rfl, ("\tms := New" ++ ms.getName ++
      "()\n\tms.InitEmpty()\n\tassert.EqualValues(t, " ++ ptf.defaultVal ++ ", ms." ++
      ptf.fieldName ++ "())\n\ttestVal" ++ ptf.fieldName ++ " := " ++ ptf.testVal ++
      "\n\tms.Set" ++ ptf.fieldName ++ "(testVal" ++ ptf.fieldName ++
      ")\n\tassert.EqualValues(t, testVal" ++ ptf.fieldName ++ ", ms." ++ ptf.fieldName ++
      "())\n\x7d").data, ?_⟩
    simp [fillPieces, accessorsPrimitiveTestPieces, testFuncName, String.data_append]
  | oneof one => simp [baseField.testFuncName] at h

/-- C19, as stated, fails: the identifier pairs (`A_B`, `C`) and (`A`, `B_C`)
differ and give the same test function name `TestA_B_C`; the tests emitted for
field `C` of struct `A_B` and for field `B_C` of struct `A` both declare it. -/
theorem C19_counterexample :
    identName "A_B" = true ∧ identName "C" = true ∧ identName "A" = true ∧
    identName "B_C" = true ∧
    testFuncName "A_B" "C" = testFuncName "A" "B_C" ∧ ¬ ("A_B" = "A" ∧ "C" = "B_C") ∧
    (∃ out, primitiveField.generateAccessorsTest ⟨"C", "c", "int", "0", "1"⟩ ⟨"A_B"⟩ "" =
        .ok out ∧ startsWith out "func TestA_B_C(t *testing.T) \x7b\n") ∧
    (∃ out, primitiveField.generateAccessorsTest ⟨"B_C", "b_c", "int", "0", "1"⟩ ⟨"A"⟩ "" =
        .ok out ∧ startsWith out "func TestA_B_C(t *testing.T) \x7b\n") := by
  refine ⟨by decide, by decide, by decide, by decide, by decide, by decide, ?_, ?_⟩
  · rw [primitiveField_generateAccessorsTest_eq]
    refine ⟨_, rfl, ("\tms := NewA_B()\n\tms.InitEmpty()\n\tassert.EqualValues(t, 0, ms.C())\n" ++
      "\ttestValC := 1\n\tms.SetC(testValC)\n\tassert.EqualValues(t, testValC, ms.C())\n\x7d").data,
      ?_⟩
    simp [fillPieces, accessorsPrimitiveTestPieces]
  · rw [primitiveField_generateAccessorsTest_eq]
    refine ⟨_, rfl, ("\tms := NewA()\n\tms.InitEmpty()\n\tassert.EqualValues(t, 0, ms.B_C())\n" ++
      "\ttestValB_C := 1\n\tms.SetB_C(testValB_C)\n" ++
      "\tassert.EqualValues(t, testValB_C, ms.B_C())\n\x7d").data, ?_⟩
    simp [fillPieces, accessorsPrimitiveTestPieces]

/-- C19, amended: when the two struct names hold no underscore, equal test
function names `"Test" ++ structName ++ "_" ++ fieldName` come from equal struct
names and equal field names; and every descriptor of the five kinds that emit
a test declares exactly this name at the start of its test. -/
theorem C19_test_names_distinct (S F S' F' : String)
    (hS : '_' ∉ S.data) (hS' : '_' ∉ S'.data) :
    (testFuncName S F = testFuncName S' F' → S = S' ∧ F = F') ∧
    (∀ (f : baseField) (ms : baseStruct) (sb : Builder) (name : String),
      f.testFuncName ms = some name →
        ∃ out, f.generateAccessorsTest ms sb = .ok (sb ++ out) ∧
          startsWith out ("func " ++ name ++ "(t *testing.T) \x7b\n")) := by
  refine ⟨?_, fun f ms sb name h => test_starts_with_name f ms sb name h⟩
  intro h
  have hd := congrArg String.data h
  simp only [testFuncName, String.data_append] at hd
  have hd' : S.data ++ '_' :: F.data = S'.data ++ '_' :: F'.data := by
    simpa using hd
  have := split_first (p := fun c => c = '_') S.data S'.data F.data F'.data '_' '_'
    (fun c hc e => hS (e ▸ hc)) (fun c hc e => hS' (e ▸ hc)) rfl rfl hd'
  exact ⟨String.ext this.1, String.ext this.2.2⟩

theorem C19_test_names_distinct_witness :
    '_' ∉ "Span".data ∧ '_' ∉ "Span".data ∧
    ((testFuncName "Span" "Status" = testFuncName "Span" "Status" →
        "Span" = "Span" ∧ "Status" = "Status") ∧
    (∀ (f : baseField) (ms : baseStruct) (sb : Builder) (name : String),
      f.testFuncName ms = some name →
        ∃ out, f.generateAccessorsTest ms sb = .ok (sb ++ out) ∧
          startsWith out ("func " ++ name ++ "(t *testing.T) \x7b\n"))) :=
  ⟨by decide, by decide,
    C19_test_names_distinct "Span" "Status" "Span" "Status" (by decide) (by decide)⟩

end Pdatagen
